import Mathlib

/-!
Verification of the generated Thrift RPC stub `ThriftHive.py` (hive_service).

The protocol channel is modelled as a list of protocol-level tokens: each
`write*` call of the generated code appends one token, each `read*` call
consumes one.  The generated per-struct `read` loops are embedded as fueled
functions (`fuel` bounds the number of iterations of the `while True` field
loop; any sufficiently large fuel gives the loop's result).  Fallible reads
return `Option`.
-/

/-- Thrift wire-type constants (thrift.Thrift.TType). -/
def TType.STOP : Nat := 0

def TType.I32 : Nat := 8

def TType.STRING : Nat := 11

def TType.STRUCT : Nat := 12

def TType.LIST : Nat := 15

/-- Thrift message-kind constants (thrift.Thrift.TMessageType). -/
def TMessageType.CALL : Nat := 1

def TMessageType.REPLY : Nat := 2

def TMessageType.EXCEPTION : Nat := 3

/-- One protocol-interface event on the wire channel: each `write*` protocol
call of the generated code emits one token, each `read*` call consumes one. -/
inductive Tok : Type where
  | tMessageBegin : String → Nat → Int → Tok
  | tMessageEnd : Tok
  | tStructBegin : String → Tok
  | tStructEnd : Tok
  | tFieldBegin : String → Nat → Int → Tok
  | tFieldStop : Tok
  | tFieldEnd : Tok
  | tString : String → Tok
  | tI32 : Int → Tok
  | tListBegin : Nat → Nat → Tok
  | tListEnd : Tok

/-- Protocol `readMessageBegin`: consumes a message envelope header. -/
def readMessageBegin : List Tok → Option ((String × Nat × Int) × List Tok)
  | Tok.tMessageBegin nm mtype seqid :: r => some ((nm, mtype, seqid), r)
  | _ => none

/-- Protocol `readMessageEnd`. -/
def readMessageEnd : List Tok → Option (List Tok)
  | Tok.tMessageEnd :: r => some r
  | _ => none

/-- Protocol `readStructBegin`. -/
def readStructBegin : List Tok → Option (List Tok)
  | Tok.tStructBegin _ :: r => some r
  | _ => none

/-- Protocol `readStructEnd`. -/
def readStructEnd : List Tok → Option (List Tok)
  | Tok.tStructEnd :: r => some r
  | _ => none

/-- Protocol `readFieldBegin`: returns `(name, ftype, fid)`; a stop marker is
reported as field type `TType.STOP`, exactly as in the binary protocol. -/
def readFieldBegin : List Tok → Option ((String × Nat × Int) × List Tok)
  | Tok.tFieldBegin fname ftype fid :: r => some ((fname, ftype, fid), r)
  | Tok.tFieldStop :: r => some (("", TType.STOP, 0), r)
  | _ => none

/-- Protocol `readFieldEnd`. -/
def readFieldEnd : List Tok → Option (List Tok)
  | Tok.tFieldEnd :: r => some r
  | _ => none

/-- Protocol `readString`. -/
def readString : List Tok → Option (String × List Tok)
  | Tok.tString s :: r => some (s, r)
  | _ => none

/-- Protocol `readI32`. -/
def readI32 : List Tok → Option (Int × List Tok)
  | Tok.tI32 n :: r => some (n, r)
  | _ => none

/-- Protocol `readListBegin`: returns `(element type, size)`. -/
def readListBegin : List Tok → Option ((Nat × Nat) × List Tok)
  | Tok.tListBegin etype size :: r => some ((etype, size), r)
  | _ => none

/-- Protocol `readListEnd`. -/
def readListEnd : List Tok → Option (List Tok)
  | Tok.tListEnd :: r => some r
  | _ => none

mutual

/-- Modelled from the spec: the external thrift protocol's `skip` routine
("unknown tags on decode are skipped"), restricted to the wire types this
service uses (string, i32, struct, list).  `fuel` bounds the recursion; any
sufficiently large fuel gives the routine's result. -/
def skipTT : Nat → Nat → List Tok → Option (List Tok)
  | 0, _, _ => none
  | fuel + 1, ftype, ts =>
    if ftype = TType.STRING then
      match ts with
      | Tok.tString _ :: r => some r
      | _ => none
    else if ftype = TType.I32 then
      match ts with
      | Tok.tI32 _ :: r => some r
      | _ => none
    else if ftype = TType.STRUCT then
      match ts with
      | Tok.tStructBegin _ :: r =>
        match skipFields fuel r with
        | some (Tok.tStructEnd :: r2) => some r2
        | _ => none
      | _ => none
    else if ftype = TType.LIST then
      match ts with
      | Tok.tListBegin etype size :: r =>
        match skipElems fuel etype size r with
        | some (Tok.tListEnd :: r2) => some r2
        | _ => none
      | _ => none
    else none

/-- The field loop of `skip` at a struct value: skip fields until a stop
marker. -/
def skipFields : Nat → List Tok → Option (List Tok)
  | 0, _ => none
  | fuel + 1, ts =>
    match readFieldBegin ts with
    | none => none
    | some ((_fname, ftype, _fid), r) =>
      if ftype = TType.STOP then some r
      else
        match skipTT fuel ftype r with
        | some (Tok.tFieldEnd :: r2) => skipFields fuel r2
        | _ => none

/-- The element loop of `skip` at a list value: skip `size` elements of type
`etype`. -/
def skipElems : Nat → Nat → Nat → List Tok → Option (List Tok)
  | 0, _, _, _ => none
  | _ + 1, _, 0, ts => some ts
  | fuel + 1, etype, size + 1, ts =>
    match skipTT fuel etype ts with
    | none => none
    | some r => skipElems fuel etype size r

end

/-- Modelled from the spec: the declared service exception struct
(`HiveServerException`, defined in `ttypes` outside the given sources).  The
spec describes it as "a single declared exception struct" carried in the
result's `ex` field; it is encoded with the same generated tag-table scheme
as every other struct, with a message string at field id 1. -/
structure HiveServerException : Type where
  message : Option String

/-- Modelled from the spec: wire form of the declared exception struct. -/
def HiveServerException.write (e : HiveServerException) : List Tok :=
  Tok.tStructBegin "HiveServerException" ::
    ((match e.message with
      | some m => [Tok.tFieldBegin "message" TType.STRING 1, Tok.tString m, Tok.tFieldEnd]
      | none => []) ++ [Tok.tFieldStop, Tok.tStructEnd])

/-- Modelled from the spec: field loop of the declared exception's decoder. -/
def HiveServerException.readFields : Nat → HiveServerException → List Tok →
    Option (HiveServerException × List Tok)
  | 0, _, _ => none
  | fuel + 1, acc, ts =>
    match readFieldBegin ts with
    | none => none
    | some ((_fname, ftype, fid), r1) =>
      if ftype = TType.STOP then
        match readStructEnd r1 with
        | none => none
        | some r2 => some (acc, r2)
      else if fid = 1 then
        if ftype = TType.STRING then
          match readString r1 with
          | none => none
          | some (v, r2) =>
            match readFieldEnd r2 with
            | none => none
            | some r3 => HiveServerException.readFields fuel { message := some v } r3
        else
          match skipTT fuel ftype r1 with
          | none => none
          | some r2 =>
            match readFieldEnd r2 with
            | none => none
            | some r3 => HiveServerException.readFields fuel acc r3
      else
        match skipTT fuel ftype r1 with
        | none => none
        | some r2 =>
          match readFieldEnd r2 with
          | none => none
          | some r3 => HiveServerException.readFields fuel acc r3

/-- Modelled from the spec: decoder of the declared exception struct. -/
def HiveServerException.read (fuel : Nat) (ts : List Tok) :
    Option (HiveServerException × List Tok) :=
  match readStructBegin ts with
  | none => none
  | some r1 => HiveServerException.readFields fuel { message := none } r1

/-- Modelled from the spec: the protocol-level application exception
(`TApplicationException` of the external thrift runtime), "a generic
application-level exception with a fixed numeric reason code".  It carries a
message string (field id 1) and the numeric reason code (field id 2). -/
structure TApplicationException : Type where
  message : Option String
  type : Option Int

/-- TApplicationException reason code `UNKNOWN_METHOD`. -/
def TApplicationException.UNKNOWN_METHOD : Int := 1

/-- TApplicationException reason code `MISSING_RESULT`. -/
def TApplicationException.MISSING_RESULT : Int := 5

/-- Modelled from the spec: wire form of the application exception. -/
def TApplicationException.write (x : TApplicationException) : List Tok :=
  Tok.tStructBegin "TApplicationException" ::
    ((match x.message with
      | some m => [Tok.tFieldBegin "message" TType.STRING 1, Tok.tString m, Tok.tFieldEnd]
      | none => []) ++
     (match x.type with
      | some c => [Tok.tFieldBegin "type" TType.I32 2, Tok.tI32 c, Tok.tFieldEnd]
      | none => []) ++ [Tok.tFieldStop, Tok.tStructEnd])

/-- Modelled from the spec: field loop of the application exception decoder. -/
def TApplicationException.readFields : Nat → TApplicationException → List Tok →
    Option (TApplicationException × List Tok)
  | 0, _, _ => none
  | fuel + 1, acc, ts =>
    match readFieldBegin ts with
    | none => none
    | some ((_fname, ftype, fid), r1) =>
      if ftype = TType.STOP then
        match readStructEnd r1 with
        | none => none
        | some r2 => some (acc, r2)
      else if fid = 1 then
        if ftype = TType.STRING then
          match readString r1 with
          | none => none
          | some (v, r2) =>
            match readFieldEnd r2 with
            | none => none
            | some r3 => TApplicationException.readFields fuel { acc with message := some v } r3
        else
          match skipTT fuel ftype r1 with
          | none => none
          | some r2 =>
            match readFieldEnd r2 with
            | none => none
            | some r3 => TApplicationException.readFields fuel acc r3
      else if fid = 2 then
        if ftype = TType.I32 then
          match readI32 r1 with
          | none => none
          | some (v, r2) =>
            match readFieldEnd r2 with
            | none => none
            | some r3 => TApplicationException.readFields fuel { acc with type := some v } r3
        else
          match skipTT fuel ftype r1 with
          | none => none
          | some r2 =>
            match readFieldEnd r2 with
            | none => none
            | some r3 => TApplicationException.readFields fuel acc r3
      else
        match skipTT fuel ftype r1 with
        | none => none
        | some r2 =>
          match readFieldEnd r2 with
          | none => none
          | some r3 => TApplicationException.readFields fuel acc r3

/-- Modelled from the spec: decoder of the application exception. -/
def TApplicationException.read (fuel : Nat) (ts : List Tok) :
    Option (TApplicationException × List Tok) :=
  match readStructBegin ts with
  | none => none
  | some r1 => TApplicationException.readFields fuel { message := none, type := none } r1

/-- `execute_args` (ThriftHive.py): one optional string field `query`, tag 1. -/
structure execute_args : Type where
  query : Option String

/-- `execute_args.write`. -/
def execute_args.write (s : execute_args) : List Tok :=
  Tok.tStructBegin "execute_args" ::
    ((match s.query with
      | some q => [Tok.tFieldBegin "query" TType.STRING 1, Tok.tString q, Tok.tFieldEnd]
      | none => []) ++ [Tok.tFieldStop, Tok.tStructEnd])

/-- Field loop of `execute_args.read`. -/
def execute_args.readFields : Nat → execute_args → List Tok → Option (execute_args × List Tok)
  | 0, _, _ => none
  | fuel + 1, acc, ts =>
    match readFieldBegin ts with
    | none => none
    | some ((_fname, ftype, fid), r1) =>
      if ftype = TType.STOP then
        match readStructEnd r1 with
        | none => none
        | some r2 => some (acc, r2)
      else if fid = 1 then
        if ftype = TType.STRING then
          match readString r1 with
          | none => none
          | some (v, r2) =>
            match readFieldEnd r2 with
            | none => none
            | some r3 => execute_args.readFields fuel { query := some v } r3
        else
          match skipTT fuel ftype r1 with
          | none => none
          | some r2 =>
            match readFieldEnd r2 with
            | none => none
            | some r3 => execute_args.readFields fuel acc r3
      else
        match skipTT fuel ftype r1 with
        | none => none
        | some r2 =>
          match readFieldEnd r2 with
          | none => none
          | some r3 => execute_args.readFields fuel acc r3

/-- `execute_args.read`. -/
def execute_args.read (fuel : Nat) (ts : List Tok) : Option (execute_args × List Tok) :=
  match readStructBegin ts with
  | none => none
  | some r1 => execute_args.readFields fuel { query := none } r1

/-- `execute_result` (ThriftHive.py): one optional exception field `ex`, tag 1
(no `success` field: `execute` is void). -/
structure execute_result : Type where
  ex : Option HiveServerException

/-- `execute_result.write`. -/
def execute_result.write (s : execute_result) : List Tok :=
  Tok.tStructBegin "execute_result" ::
    ((match s.ex with
      | some e => Tok.tFieldBegin "ex" TType.STRUCT 1 :: (HiveServerException.write e ++ [Tok.tFieldEnd])
      | none => []) ++ [Tok.tFieldStop, Tok.tStructEnd])

/-- Field loop of `execute_result.read`. -/
def execute_result.readFields : Nat → execute_result → List Tok → Option (execute_result × List Tok)
  | 0, _, _ => none
  | fuel + 1, acc, ts =>
    match readFieldBegin ts with
    | none => none
    | some ((_fname, ftype, fid), r1) =>
      if ftype = TType.STOP then
        match readStructEnd r1 with
        | none => none
        | some r2 => some (acc, r2)
      else if fid = 1 then
        if ftype = TType.STRUCT then
          match HiveServerException.read fuel r1 with
          | none => none
          | some (e, r2) =>
            match readFieldEnd r2 with
            | none => none
            | some r3 => execute_result.readFields fuel { ex := some e } r3
        else
          match skipTT fuel ftype r1 with
          | none => none
          | some r2 =>
            match readFieldEnd r2 with
            | none => none
            | some r3 => execute_result.readFields fuel acc r3
      else
        match skipTT fuel ftype r1 with
        | none => none
        | some r2 =>
          match readFieldEnd r2 with
          | none => none
          | some r3 => execute_result.readFields fuel acc r3

/-- `execute_result.read`. -/
def execute_result.read (fuel : Nat) (ts : List Tok) : Option (execute_result × List Tok) :=
  match readStructBegin ts with
  | none => none
  | some r1 => execute_result.readFields fuel { ex := none } r1

/-- `fetchOne_args` (ThriftHive.py): no fields. -/
structure fetchOne_args : Type

/-- `fetchOne_args.write`. -/
def fetchOne_args.write (_s : fetchOne_args) : List Tok :=
  [Tok.tStructBegin "fetchOne_args", Tok.tFieldStop, Tok.tStructEnd]

/-- Field loop of `fetchOne_args.read`: every field is skipped. -/
def fetchOne_args.readFields : Nat → fetchOne_args → List Tok → Option (fetchOne_args × List Tok)
  | 0, _, _ => none
  | fuel + 1, acc, ts =>
    match readFieldBegin ts with
    | none => none
    | some ((_fname, ftype, _fid), r1) =>
      if ftype = TType.STOP then
        match readStructEnd r1 with
        | none => none
        | some r2 => some (acc, r2)
      else
        match skipTT fuel ftype r1 with
        | none => none
        | some r2 =>
          match readFieldEnd r2 with
          | none => none
          | some r3 => fetchOne_args.readFields fuel acc r3

/-- `fetchOne_args.read`. -/
def fetchOne_args.read (fuel : Nat) (ts : List Tok) : Option (fetchOne_args × List Tok) :=
  match readStructBegin ts with
  | none => none
  | some r1 => fetchOne_args.readFields fuel {} r1

/-- `fetchOne_result` (ThriftHive.py): optional string `success` (tag 0) and
optional exception `ex` (tag 1). -/
structure fetchOne_result : Type where
  success : Option String
  ex : Option HiveServerException

/-- `fetchOne_result.write`. -/
def fetchOne_result.write (s : fetchOne_result) : List Tok :=
  Tok.tStructBegin "fetchOne_result" ::
    ((match s.success with
      | some v => [Tok.tFieldBegin "success" TType.STRING 0, Tok.tString v, Tok.tFieldEnd]
      | none => []) ++
     ((match s.ex with
       | some e => Tok.tFieldBegin "ex" TType.STRUCT 1 :: (HiveServerException.write e ++ [Tok.tFieldEnd])
       | none => []) ++ [Tok.tFieldStop, Tok.tStructEnd]))

/-- Field loop of `fetchOne_result.read`. -/
def fetchOne_result.readFields : Nat → fetchOne_result → List Tok → Option (fetchOne_result × List Tok)
  | 0, _, _ => none
  | fuel + 1, acc, ts =>
    match readFieldBegin ts with
    | none => none
    | some ((_fname, ftype, fid), r1) =>
      if ftype = TType.STOP then
        match readStructEnd r1 with
        | none => none
        | some r2 => some (acc, r2)
      else if fid = 0 then
        if ftype = TType.STRING then
          match readString r1 with
          | none => none
          | some (v, r2) =>
            match readFieldEnd r2 with
            | none => none
            | some r3 => fetchOne_result.readFields fuel { acc with success := some v } r3
        else
          match skipTT fuel ftype r1 with
          | none => none
          | some r2 =>
            match readFieldEnd r2 with
            | none => none
            | some r3 => fetchOne_result.readFields fuel acc r3
      else if fid = 1 then
        if ftype = TType.STRUCT then
          match HiveServerException.read fuel r1 with
          | none => none
          | some (e, r2) =>
            match readFieldEnd r2 with
            | none => none
            | some r3 => fetchOne_result.readFields fuel { acc with ex := some e } r3
        else
          match skipTT fuel ftype r1 with
          | none => none
          | some r2 =>
            match readFieldEnd r2 with
            | none => none
            | some r3 => fetchOne_result.readFields fuel acc r3
      else
        match skipTT fuel ftype r1 with
        | none => none
        | some r2 =>
          match readFieldEnd r2 with
          | none => none
          | some r3 => fetchOne_result.readFields fuel acc r3

/-- `fetchOne_result.read`. -/
def fetchOne_result.read (fuel : Nat) (ts : List Tok) : Option (fetchOne_result × List Tok) :=
  match readStructBegin ts with
  | none => none
  | some r1 => fetchOne_result.readFields fuel { success := none, ex := none } r1

/-- `fetchN_args` (ThriftHive.py): one optional i32 field `numRows`, tag 1. -/
structure fetchN_args : Type where
  numRows : Option Int

/-- `fetchN_args.write`. -/
def fetchN_args.write (s : fetchN_args) : List Tok :=
  Tok.tStructBegin "fetchN_args" ::
    ((match s.numRows with
      | some n => [Tok.tFieldBegin "numRows" TType.I32 1, Tok.tI32 n, Tok.tFieldEnd]
      | none => []) ++ [Tok.tFieldStop, Tok.tStructEnd])

/-- Field loop of `fetchN_args.read`. -/
def fetchN_args.readFields : Nat → fetchN_args → List Tok → Option (fetchN_args × List Tok)
  | 0, _, _ => none
  | fuel + 1, acc, ts =>
    match readFieldBegin ts with
    | none => none
    | some ((_fname, ftype, fid), r1) =>
      if ftype = TType.STOP then
        match readStructEnd r1 with
        | none => none
        | some r2 => some (acc, r2)
      else if fid = 1 then
        if ftype = TType.I32 then
          match readI32 r1 with
          | none => none
          | some (v, r2) =>
            match readFieldEnd r2 with
            | none => none
            | some r3 => fetchN_args.readFields fuel { numRows := some v } r3
        else
          match skipTT fuel ftype r1 with
          | none => none
          | some r2 =>
            match readFieldEnd r2 with
            | none => none
            | some r3 => fetchN_args.readFields fuel acc r3
      else
        match skipTT fuel ftype r1 with
        | none => none
        | some r2 =>
          match readFieldEnd r2 with
          | none => none
          | some r3 => fetchN_args.readFields fuel acc r3

/-- `fetchN_args.read`. -/
def fetchN_args.read (fuel : Nat) (ts : List Tok) : Option (fetchN_args × List Tok) :=
  match readStructBegin ts with
  | none => none
  | some r1 => fetchN_args.readFields fuel { numRows := none } r1

/-- The element loop of the generated list decode: `for _i in xrange(size):
elem = iprot.readString(); acc.append(elem)`.  The element type reported on
the wire is ignored, exactly as in the generated code. -/
def readListElems : Nat → List String → List Tok → Option (List String × List Tok)
  | 0, acc, ts => some (acc, ts)
  | size + 1, acc, ts =>
    match readString ts with
    | none => none
    | some (s, r) => readListElems size (acc ++ [s]) r

/-- `fetchN_result` (ThriftHive.py): optional list-of-strings `success`
(tag 0) and optional exception `ex` (tag 1). -/
structure fetchN_result : Type where
  success : Option (List String)
  ex : Option HiveServerException

/-- `fetchN_result.write`. -/
def fetchN_result.write (s : fetchN_result) : List Tok :=
  Tok.tStructBegin "fetchN_result" ::
    ((match s.success with
      | some xs =>
        Tok.tFieldBegin "success" TType.LIST 0 :: Tok.tListBegin TType.STRING xs.length ::
          (xs.map Tok.tString ++ [Tok.tListEnd, Tok.tFieldEnd])
      | none => []) ++
     ((match s.ex with
       | some e => Tok.tFieldBegin "ex" TType.STRUCT 1 :: (HiveServerException.write e ++ [Tok.tFieldEnd])
       | none => []) ++ [Tok.tFieldStop, Tok.tStructEnd]))

/-- Field loop of `fetchN_result.read`. -/
def fetchN_result.readFields : Nat → fetchN_result → List Tok → Option (fetchN_result × List Tok)
  | 0, _, _ => none
  | fuel + 1, acc, ts =>
    match readFieldBegin ts with
    | none => none
    | some ((_fname, ftype, fid), r1) =>
      if ftype = TType.STOP then
        match readStructEnd r1 with
        | none => none
        | some r2 => some (acc, r2)
      else if fid = 0 then
        if ftype = TType.LIST then
          match readListBegin r1 with
          | none => none
          | some ((_etype, size), r2) =>
            match readListElems size [] r2 with
            | none => none
            | some (xs, r3) =>
              match readListEnd r3 with
              | none => none
              | some r4 =>
                match readFieldEnd r4 with
                | none => none
                | some r5 => fetchN_result.readFields fuel { acc with success := some xs } r5
        else
          match skipTT fuel ftype r1 with
          | none => none
          | some r2 =>
            match readFieldEnd r2 with
            | none => none
            | some r3 => fetchN_result.readFields fuel acc r3
      else if fid = 1 then
        if ftype = TType.STRUCT then
          match HiveServerException.read fuel r1 with
          | none => none
          | some (e, r2) =>
            match readFieldEnd r2 with
            | none => none
            | some r3 => fetchN_result.readFields fuel { acc with ex := some e } r3
        else
          match skipTT fuel ftype r1 with
          | none => none
          | some r2 =>
            match readFieldEnd r2 with
            | none => none
            | some r3 => fetchN_result.readFields fuel acc r3
      else
        match skipTT fuel ftype r1 with
        | none => none
        | some r2 =>
          match readFieldEnd r2 with
          | none => none
          | some r3 => fetchN_result.readFields fuel acc r3

/-- `fetchN_result.read`. -/
def fetchN_result.read (fuel : Nat) (ts : List Tok) : Option (fetchN_result × List Tok) :=
  match readStructBegin ts with
  | none => none
  | some r1 => fetchN_result.readFields fuel { success := none, ex := none } r1

/-- `fetchAll_args` (ThriftHive.py): no fields. -/
structure fetchAll_args : Type

/-- `fetchAll_args.write`. -/
def fetchAll_args.write (_s : fetchAll_args) : List Tok :=
  [Tok.tStructBegin "fetchAll_args", Tok.tFieldStop, Tok.tStructEnd]

/-- Field loop of `fetchAll_args.read`: every field is skipped. -/
def fetchAll_args.readFields : Nat → fetchAll_args → List Tok → Option (fetchAll_args × List Tok)
  | 0, _, _ => none
  | fuel + 1, acc, ts =>
    match readFieldBegin ts with
    | none => none
    | some ((_fname, ftype, _fid), r1) =>
      if ftype = TType.STOP then
        match readStructEnd r1 with
        | none => none
        | some r2 => some (acc, r2)
      else
        match skipTT fuel ftype r1 with
        | none => none
        | some r2 =>
          match readFieldEnd r2 with
          | none => none
          | some r3 => fetchAll_args.readFields fuel acc r3

/-- `fetchAll_args.read`. -/
def fetchAll_args.read (fuel : Nat) (ts : List Tok) : Option (fetchAll_args × List Tok) :=
  match readStructBegin ts with
  | none => none
  | some r1 => fetchAll_args.readFields fuel {} r1

/-- `fetchAll_result` (ThriftHive.py): same shape as `fetchN_result`. -/
structure fetchAll_result : Type where
  success : Option (List String)
  ex : Option HiveServerException

/-- `fetchAll_result.write`. -/
def fetchAll_result.write (s : fetchAll_result) : List Tok :=
  Tok.tStructBegin "fetchAll_result" ::
    ((match s.success with
      | some xs =>
        Tok.tFieldBegin "success" TType.LIST 0 :: Tok.tListBegin TType.STRING xs.length ::
          (xs.map Tok.tString ++ [Tok.tListEnd, Tok.tFieldEnd])
      | none => []) ++
     ((match s.ex with
       | some e => Tok.tFieldBegin "ex" TType.STRUCT 1 :: (HiveServerException.write e ++ [Tok.tFieldEnd])
       | none => []) ++ [Tok.tFieldStop, Tok.tStructEnd]))

/-- Field loop of `fetchAll_result.read`. -/
def fetchAll_result.readFields : Nat → fetchAll_result → List Tok → Option (fetchAll_result × List Tok)
  | 0, _, _ => none
  | fuel + 1, acc, ts =>
    match readFieldBegin ts with
    | none => none
    | some ((_fname, ftype, fid), r1) =>
      if ftype = TType.STOP then
        match readStructEnd r1 with
        | none => none
        | some r2 => some (acc, r2)
      else if fid = 0 then
        if ftype = TType.LIST then
          match readListBegin r1 with
          | none => none
          | some ((_etype, size), r2) =>
            match readListElems size [] r2 with
            | none => none
            | some (xs, r3) =>
              match readListEnd r3 with
              | none => none
              | some r4 =>
                match readFieldEnd r4 with
                | none => none
                | some r5 => fetchAll_result.readFields fuel { acc with success := some xs } r5
        else
          match skipTT fuel ftype r1 with
          | none => none
          | some r2 =>
            match readFieldEnd r2 with
            | none => none
            | some r3 => fetchAll_result.readFields fuel acc r3
      else if fid = 1 then
        if ftype = TType.STRUCT then
          match HiveServerException.read fuel r1 with
          | none => none
          | some (e, r2) =>
            match readFieldEnd r2 with
            | none => none
            | some r3 => fetchAll_result.readFields fuel { acc with ex := some e } r3
        else
          match skipTT fuel ftype r1 with
          | none => none
          | some r2 =>
            match readFieldEnd r2 with
            | none => none
            | some r3 => fetchAll_result.readFields fuel acc r3
      else
        match skipTT fuel ftype r1 with
        | none => none
        | some r2 =>
          match readFieldEnd r2 with
          | none => none
          | some r3 => fetchAll_result.readFields fuel acc r3

/-- `fetchAll_result.read`. -/
def fetchAll_result.read (fuel : Nat) (ts : List Tok) : Option (fetchAll_result × List Tok) :=
  match readStructBegin ts with
  | none => none
  | some r1 => fetchAll_result.readFields fuel { success := none, ex := none } r1

/-- `getSchema_args` (ThriftHive.py): no fields. -/
structure getSchema_args : Type

/-- `getSchema_args.write`. -/
def getSchema_args.write (_s : getSchema_args) : List Tok :=
  [Tok.tStructBegin "getSchema_args", Tok.tFieldStop, Tok.tStructEnd]

/-- Field loop of `getSchema_args.read`: every field is skipped. -/
def getSchema_args.readFields : Nat → getSchema_args → List Tok → Option (getSchema_args × List Tok)
  | 0, _, _ => none
  | fuel + 1, acc, ts =>
    match readFieldBegin ts with
    | none => none
    | some ((_fname, ftype, _fid), r1) =>
      if ftype = TType.STOP then
        match readStructEnd r1 with
        | none => none
        | some r2 => some (acc, r2)
      else
        match skipTT fuel ftype r1 with
        | none => none
        | some r2 =>
          match readFieldEnd r2 with
          | none => none
          | some r3 => getSchema_args.readFields fuel acc r3

/-- `getSchema_args.read`. -/
def getSchema_args.read (fuel : Nat) (ts : List Tok) : Option (getSchema_args × List Tok) :=
  match readStructBegin ts with
  | none => none
  | some r1 => getSchema_args.readFields fuel {} r1

/-- `getSchema_result` (ThriftHive.py): same shape as `fetchOne_result`. -/
structure getSchema_result : Type where
  success : Option String
  ex : Option HiveServerException

/-- `getSchema_result.write`. -/
def getSchema_result.write (s : getSchema_result) : List Tok :=
  Tok.tStructBegin "getSchema_result" ::
    ((match s.success with
      | some v => [Tok.tFieldBegin "success" TType.STRING 0, Tok.tString v, Tok.tFieldEnd]
      | none => []) ++
     ((match s.ex with
       | some e => Tok.tFieldBegin "ex" TType.STRUCT 1 :: (HiveServerException.write e ++ [Tok.tFieldEnd])
       | none => []) ++ [Tok.tFieldStop, Tok.tStructEnd]))

/-- Field loop of `getSchema_result.read`. -/
def getSchema_result.readFields : Nat → getSchema_result → List Tok → Option (getSchema_result × List Tok)
  | 0, _, _ => none
  | fuel + 1, acc, ts =>
    match readFieldBegin ts with
    | none => none
    | some ((_fname, ftype, fid), r1) =>
      if ftype = TType.STOP then
        match readStructEnd r1 with
        | none => none
        | some r2 => some (acc, r2)
      else if fid = 0 then
        if ftype = TType.STRING then
          match readString r1 with
          | none => none
          | some (v, r2) =>
            match readFieldEnd r2 with
            | none => none
            | some r3 => getSchema_result.readFields fuel { acc with success := some v } r3
        else
          match skipTT fuel ftype r1 with
          | none => none
          | some r2 =>
            match readFieldEnd r2 with
            | none => none
            | some r3 => getSchema_result.readFields fuel acc r3
      else if fid = 1 then
        if ftype = TType.STRUCT then
          match HiveServerException.read fuel r1 with
          | none => none
          | some (e, r2) =>
            match readFieldEnd r2 with
            | none => none
            | some r3 => getSchema_result.readFields fuel { acc with ex := some e } r3
        else
          match skipTT fuel ftype r1 with
          | none => none
          | some r2 =>
            match readFieldEnd r2 with
            | none => none
            | some r3 => getSchema_result.readFields fuel acc r3
      else
        match skipTT fuel ftype r1 with
        | none => none
        | some r2 =>
          match readFieldEnd r2 with
          | none => none
          | some r3 => getSchema_result.readFields fuel acc r3

/-- `getSchema_result.read`. -/
def getSchema_result.read (fuel : Nat) (ts : List Tok) : Option (getSchema_result × List Tok) :=
  match readStructBegin ts with
  | none => none
  | some r1 => getSchema_result.readFields fuel { success := none, ex := none } r1

/-- The observable outcome of a client `recv_*` stub: a returned value, a
raised declared service exception (`raise result.ex`), or a raised
protocol-level application exception. -/
inductive ClientOutcome (α : Type) : Type where
  | ret : α → ClientOutcome α
  | threw : HiveServerException → ClientOutcome α
  | appError : TApplicationException → ClientOutcome α

/-- `Client.recv_execute`, lines 62-64: after decoding the reply struct,
raise `result.ex` when populated, otherwise return (void); there is no
missing-result check. -/
def recv_execute (r : execute_result) : ClientOutcome Unit :=
  match r.ex with
  | some e => ClientOutcome.threw e
  | none => ClientOutcome.ret ()

/-- `Client.recv_fetchOne`, lines 87-91: return `success` if populated, else
raise `ex` if populated, else raise `TApplicationException(MISSING_RESULT,
"fetchOne failed: unknown result")`. -/
def recv_fetchOne (r : fetchOne_result) : ClientOutcome String :=
  match r.success with
  | some v => ClientOutcome.ret v
  | none =>
    match r.ex with
    | some e => ClientOutcome.threw e
    | none =>
      ClientOutcome.appError
        { message := some "fetchOne failed: unknown result"
          type := some TApplicationException.MISSING_RESULT }

/-- `Client.recv_fetchN`, lines 115-119. -/
def recv_fetchN (r : fetchN_result) : ClientOutcome (List String) :=
  match r.success with
  | some v => ClientOutcome.ret v
  | none =>
    match r.ex with
    | some e => ClientOutcome.threw e
    | none =>
      ClientOutcome.appError
        { message := some "fetchN failed: unknown result"
          type := some TApplicationException.MISSING_RESULT }

/-- `Client.recv_fetchAll`, lines 142-146. -/
def recv_fetchAll (r : fetchAll_result) : ClientOutcome (List String) :=
  match r.success with
  | some v => ClientOutcome.ret v
  | none =>
    match r.ex with
    | some e => ClientOutcome.threw e
    | none =>
      ClientOutcome.appError
        { message := some "fetchAll failed: unknown result"
          type := some TApplicationException.MISSING_RESULT }

/-- `Client.recv_getSchema`, lines 169-173. -/
def recv_getSchema (r : getSchema_result) : ClientOutcome String :=
  match r.success with
  | some v => ClientOutcome.ret v
  | none =>
    match r.ex with
    | some e => ClientOutcome.threw e
    | none =>
      ClientOutcome.appError
        { message := some "getSchema failed: unknown result"
          type := some TApplicationException.MISSING_RESULT }

/-- `Client.send_execute`: writes one `CALL` envelope framing the serialized
arguments, then flushes the transport. -/
def send_execute (seqid : Int) (query : Option String) : List Tok :=
  Tok.tMessageBegin "execute" TMessageType.CALL seqid ::
    (execute_args.write { query := query } ++ [Tok.tMessageEnd])

/-- `Client.recv_execute`, lines 52-64, from the wire: read one reply
envelope; on an `EXCEPTION` envelope decode and raise the application
exception, otherwise decode the result struct and apply the `recv_execute`
result dispatch. -/
def recv_execute_wire (fuel : Nat) (ts : List Tok) : Option (ClientOutcome Unit × List Tok) :=
  match readMessageBegin ts with
  | none => none
  | some ((_fname, mtype, _rseqid), r1) =>
    if mtype = TMessageType.EXCEPTION then
      match TApplicationException.read fuel r1 with
      | none => none
      | some (x, r2) =>
        match readMessageEnd r2 with
        | none => none
        | some r3 => some (ClientOutcome.appError x, r3)
    else
      match execute_result.read fuel r1 with
      | none => none
      | some (result, r2) =>
        match readMessageEnd r2 with
        | none => none
        | some r3 => some (recv_execute result, r3)

/-- Number of message envelopes in a token stream. -/
def countMessages (ts : List Tok) : Nat :=
  ts.countP fun t =>
    match t with
    | Tok.tMessageBegin _ _ _ => true
    | _ => false

/-- `Client.execute`, lines 40-42: one `send_execute` followed by one
blocking `recv_execute`.  The first component is everything written to the
output protocol, the second is the outcome of receiving from the input
stream `its`. -/
def Client.execute (seqid : Int) (query : Option String) (fuel : Nat) (its : List Tok) :
    List Tok × Option (ClientOutcome Unit × List Tok) :=
  (send_execute seqid query, recv_execute_wire fuel its)

/-- Behaviour of one handler call: a normal return, a raised declared
`HiveServerException`, or any other raised exception (identified abstractly
by a numeric id). -/
inductive HandlerOutcome (α : Type) : Type where
  | ok : α → HandlerOutcome α
  | hiveEx : HiveServerException → HandlerOutcome α
  | otherEx : Nat → HandlerOutcome α

/-- The externally supplied handler object (`Iface`). -/
structure Handler : Type where
  execute : Option String → HandlerOutcome Unit
  fetchOne : HandlerOutcome String
  fetchN : Option Int → HandlerOutcome (List String)
  fetchAll : HandlerOutcome (List String)
  getSchema : HandlerOutcome String

/-- The `try/except HiveServerException` block of `Processor.process_execute`:
builds the reply struct from the handler call's behaviour; any exception
other than `HiveServerException` is not caught and propagates
(`Except.error`). -/
def run_execute (o : HandlerOutcome Unit) : Except Nat execute_result :=
  match o with
  | HandlerOutcome.ok _ => Except.ok { ex := none }
  | HandlerOutcome.hiveEx e => Except.ok { ex := some e }
  | HandlerOutcome.otherEx n => Except.error n

/-- The `try/except HiveServerException` block of `Processor.process_fetchOne`. -/
def run_fetchOne (o : HandlerOutcome String) : Except Nat fetchOne_result :=
  match o with
  | HandlerOutcome.ok v => Except.ok { success := some v, ex := none }
  | HandlerOutcome.hiveEx e => Except.ok { success := none, ex := some e }
  | HandlerOutcome.otherEx n => Except.error n

/-- The `try/except HiveServerException` block of `Processor.process_fetchN`. -/
def run_fetchN (o : HandlerOutcome (List String)) : Except Nat fetchN_result :=
  match o with
  | HandlerOutcome.ok v => Except.ok { success := some v, ex := none }
  | HandlerOutcome.hiveEx e => Except.ok { success := none, ex := some e }
  | HandlerOutcome.otherEx n => Except.error n

/-- The `try/except HiveServerException` block of `Processor.process_fetchAll`. -/
def run_fetchAll (o : HandlerOutcome (List String)) : Except Nat fetchAll_result :=
  match o with
  | HandlerOutcome.ok v => Except.ok { success := some v, ex := none }
  | HandlerOutcome.hiveEx e => Except.ok { success := none, ex := some e }
  | HandlerOutcome.otherEx n => Except.error n

/-- The `try/except HiveServerException` block of `Processor.process_getSchema`. -/
def run_getSchema (o : HandlerOutcome String) : Except Nat getSchema_result :=
  match o with
  | HandlerOutcome.ok v => Except.ok { success := some v, ex := none }
  | HandlerOutcome.hiveEx e => Except.ok { success := none, ex := some e }
  | HandlerOutcome.otherEx n => Except.error n

/-- Result of a server dispatch: either a finished call (its Python return
value, and the tokens written to the output protocol), or an uncaught
exception propagating out of the dispatch method before anything was
written. -/
inductive ProcOut : Type where
  | done : Option Bool → List Tok → ProcOut
  | propagated : Nat → ProcOut

/-- `Processor.process_execute`, lines 200-212: decode the args struct, end
the message, run the handler under the single catch, and (unless an uncaught
exception propagates) write one `REPLY` envelope framing the result
struct. -/
def process_execute (h : Handler) (seqid : Int) (fuel : Nat) (its : List Tok) : Option ProcOut :=
  match execute_args.read fuel its with
  | none => none
  | some (args, r1) =>
    match readMessageEnd r1 with
    | none => none
    | some _r2 =>
      match run_execute (h.execute args.query) with
      | Except.error n => some (ProcOut.propagated n)
      | Except.ok result =>
        some (ProcOut.done none
          (Tok.tMessageBegin "execute" TMessageType.REPLY seqid ::
            (execute_result.write result ++ [Tok.tMessageEnd])))

/-- `Processor.process_fetchOne`, lines 214-226. -/
def process_fetchOne (h : Handler) (seqid : Int) (fuel : Nat) (its : List Tok) : Option ProcOut :=
  match fetchOne_args.read fuel its with
  | none => none
  | some (_args, r1) =>
    match readMessageEnd r1 with
    | none => none
    | some _r2 =>
      match run_fetchOne h.fetchOne with
      | Except.error n => some (ProcOut.propagated n)
      | Except.ok result =>
        some (ProcOut.done none
          (Tok.tMessageBegin "fetchOne" TMessageType.REPLY seqid ::
            (fetchOne_result.write result ++ [Tok.tMessageEnd])))

/-- `Processor.process_fetchN`, lines 228-240. -/
def process_fetchN (h : Handler) (seqid : Int) (fuel : Nat) (its : List Tok) : Option ProcOut :=
  match fetchN_args.read fuel its with
  | none => none
  | some (args, r1) =>
    match readMessageEnd r1 with
    | none => none
    | some _r2 =>
      match run_fetchN (h.fetchN args.numRows) with
      | Except.error n => some (ProcOut.propagated n)
      | Except.ok result =>
        some (ProcOut.done none
          (Tok.tMessageBegin "fetchN" TMessageType.REPLY seqid ::
            (fetchN_result.write result ++ [Tok.tMessageEnd])))

/-- `Processor.process_fetchAll`, lines 242-254. -/
def process_fetchAll (h : Handler) (seqid : Int) (fuel : Nat) (its : List Tok) : Option ProcOut :=
  match fetchAll_args.read fuel its with
  | none => none
  | some (_args, r1) =>
    match readMessageEnd r1 with
    | none => none
    | some _r2 =>
      match run_fetchAll h.fetchAll with
      | Except.error n => some (ProcOut.propagated n)
      | Except.ok result =>
        some (ProcOut.done none
          (Tok.tMessageBegin "fetchAll" TMessageType.REPLY seqid ::
            (fetchAll_result.write result ++ [Tok.tMessageEnd])))

/-- `Processor.process_getSchema`, lines 256-268. -/
def process_getSchema (h : Handler) (seqid : Int) (fuel : Nat) (its : List Tok) : Option ProcOut :=
  match getSchema_args.read fuel its with
  | none => none
  | some (_args, r1) =>
    match readMessageEnd r1 with
    | none => none
    | some _r2 =>
      match run_getSchema h.getSchema with
      | Except.error n => some (ProcOut.propagated n)
      | Except.ok result =>
        some (ProcOut.done none
          (Tok.tMessageBegin "getSchema" TMessageType.REPLY seqid ::
            (getSchema_result.write result ++ [Tok.tMessageEnd])))

/-- The five keys this processor registers in `self._processMap`
(`Processor.__init__`, lines 179-183). -/
def processKeys : List String := ["execute", "fetchOne", "fetchN", "fetchAll", "getSchema"]

/-- Lookup of `self._processMap[name]` among the five entries this processor
registers (these shadow any inherited entry of the same name). -/
def processDispatch (h : Handler) (name : String) (seqid : Int) (fuel : Nat) (its : List Tok) :
    Option ProcOut :=
  if name = "execute" then process_execute h seqid fuel its
  else if name = "fetchOne" then process_fetchOne h seqid fuel its
  else if name = "fetchN" then process_fetchN h seqid fuel its
  else if name = "fetchAll" then process_fetchAll h seqid fuel its
  else if name = "getSchema" then process_getSchema h seqid fuel its
  else none

/-- `Processor.process`, lines 185-198.  `baseKeys`/`baseRun` model the
dispatch-table entries inherited from the metastore parent processor (code
outside the given sources): a name found there is handled by `baseRun`.  A
name in neither table gets the unknown-method treatment: the request payload
is skipped as a struct, the message is ended, and one `EXCEPTION` envelope
framing `TApplicationException(UNKNOWN_METHOD, 'Unknown function ' + name)`
is written; no handler runs and the Python method returns `None` instead of
`True`. -/
def process (h : Handler) (baseKeys : List String)
    (baseRun : String → Int → List Tok → Option ProcOut)
    (fuel : Nat) (its : List Tok) : Option ProcOut :=
  match readMessageBegin its with
  | none => none
  | some ((name, _mtype, seqid), r1) =>
    if name ∈ processKeys then
      match processDispatch h name seqid fuel r1 with
      | none => none
      | some (ProcOut.done _ toks) => some (ProcOut.done (some true) toks)
      | some (ProcOut.propagated n) => some (ProcOut.propagated n)
    else if name ∈ baseKeys then
      match baseRun name seqid r1 with
      | none => none
      | some (ProcOut.done _ toks) => some (ProcOut.done (some true) toks)
      | some (ProcOut.propagated n) => some (ProcOut.propagated n)
    else
      match skipTT fuel TType.STRUCT r1 with
      | none => none
      | some r2 =>
        match readMessageEnd r2 with
        | none => none
        | some _r3 =>
          some (ProcOut.done none
            (Tok.tMessageBegin name TMessageType.EXCEPTION seqid ::
              (TApplicationException.write
                { message := some (String.append "Unknown function " name)
                  type := some TApplicationException.UNKNOWN_METHOD } ++ [Tok.tMessageEnd])))

mutual

/-- A well-formed wire value of one of the wire types this service uses:
used to quantify over the payload of an unknown field. -/
inductive WireVal : Type where
  | wStr : String → WireVal
  | wI32 : Int → WireVal
  | wStrList : List String → WireVal
  | wStruct : String → WireFields → WireVal

/-- The field list of a well-formed nested struct value. -/
inductive WireFields : Type where
  | wfNil : WireFields
  | wfCons : String → Int → WireVal → WireFields → WireFields

end

/-- Wire-type tag of a well-formed wire value. -/
def wireType : WireVal → Nat
  | WireVal.wStr _ => TType.STRING
  | WireVal.wI32 _ => TType.I32
  | WireVal.wStrList _ => TType.LIST
  | WireVal.wStruct _ _ => TType.STRUCT

mutual

/-- Token stream of a well-formed wire value. -/
def encodeVal : WireVal → List Tok
  | WireVal.wStr s => [Tok.tString s]
  | WireVal.wI32 n => [Tok.tI32 n]
  | WireVal.wStrList xs =>
    Tok.tListBegin TType.STRING xs.length :: (xs.map Tok.tString ++ [Tok.tListEnd])
  | WireVal.wStruct sname fs =>
    Tok.tStructBegin sname :: (encodeFields fs ++ [Tok.tFieldStop, Tok.tStructEnd])

/-- Token stream of the fields of a well-formed nested struct value. -/
def encodeFields : WireFields → List Tok
  | WireFields.wfNil => []
  | WireFields.wfCons fname fid v fs =>
    Tok.tFieldBegin fname (wireType v) fid :: (encodeVal v ++ (Tok.tFieldEnd :: encodeFields fs))

end

mutual

/-- Enough `skipTT` fuel to skip a well-formed wire value. -/
def valFuel : WireVal → Nat
  | WireVal.wStr _ => 1
  | WireVal.wI32 _ => 1
  | WireVal.wStrList xs => xs.length + 2
  | WireVal.wStruct _ fs => fieldsFuel fs + 1

/-- Enough `skipFields` fuel to skip a well-formed field list. -/
def fieldsFuel : WireFields → Nat
  | WireFields.wfNil => 1
  | WireFields.wfCons _ _ v fs => 1 + valFuel v + fieldsFuel fs

end

/-- No well-formed wire value has the stop tag as its wire type. -/
theorem wireType_ne_stop (v : WireVal) : wireType v ≠ TType.STOP := by
  cases v <;> simp [wireType, TType.STOP, TType.STRING, TType.I32, TType.LIST, TType.STRUCT]

/-- `skipElems` at string element type consumes exactly the encoded strings. -/
theorem skipElems_strs : ∀ (xs : List String) (fuel : Nat) (rest : List Tok),
    xs.length + 1 ≤ fuel →
    skipElems fuel TType.STRING xs.length (xs.map Tok.tString ++ rest) = some rest
  | [], 0, _rest, h => by simp at h
  | [], _fuel + 1, _rest, _h => rfl
  | x :: xs, 0, _rest, h => by simp at h
  | x :: xs, fuel + 1, rest, h => by
    have hx : xs.length + 1 ≤ fuel := by
      simp only [List.length_cons] at h
      omega
    have hf : 1 ≤ fuel := le_trans (Nat.le_add_left 1 xs.length) hx
    obtain ⟨g, rfl⟩ : ∃ g, fuel = g + 1 := ⟨fuel - 1, by omega⟩
    show skipElems (g + 1 + 1) TType.STRING (xs.length + 1)
        (Tok.tString x :: (xs.map Tok.tString ++ rest)) = some rest
    simp only [skipElems, skipTT, TType.STRING]
    exact skipElems_strs xs (g + 1) rest hx

mutual

/-- The thrift `skip` routine consumes exactly the encoding of a well-formed
wire value, given enough fuel. -/
theorem skipTT_enc : ∀ (v : WireVal) (fuel : Nat) (rest : List Tok),
    valFuel v ≤ fuel → skipTT fuel (wireType v) (encodeVal v ++ rest) = some rest
  | WireVal.wStr s, 0, _rest, h => by simp [valFuel] at h
  | WireVal.wStr s, _fuel + 1, _rest, _h => rfl
  | WireVal.wI32 n, 0, _rest, h => by simp [valFuel] at h
  | WireVal.wI32 n, _fuel + 1, _rest, _h => rfl
  | WireVal.wStrList xs, 0, _rest, h => by simp [valFuel] at h
  | WireVal.wStrList xs, fuel + 1, rest, h => by
    have hx : xs.length + 1 ≤ fuel := by
      simp only [valFuel] at h
      omega
    have hs := skipElems_strs xs fuel (Tok.tListEnd :: rest) hx
    show skipTT (fuel + 1) TType.LIST
        (Tok.tListBegin TType.STRING xs.length :: ((xs.map Tok.tString ++ [Tok.tListEnd]) ++ rest))
        = some rest
    have hl : (xs.map Tok.tString ++ [Tok.tListEnd]) ++ rest
        = xs.map Tok.tString ++ (Tok.tListEnd :: rest) := by simp
    rw [hl]
    have step : skipTT (fuel + 1) TType.LIST
        (Tok.tListBegin TType.STRING xs.length :: (xs.map Tok.tString ++ (Tok.tListEnd :: rest)))
        = (match skipElems fuel TType.STRING xs.length (xs.map Tok.tString ++ (Tok.tListEnd :: rest)) with
           | some (Tok.tListEnd :: r2) => some r2
           | _ => none) := rfl
    rw [step, hs]
  | WireVal.wStruct sname fs, 0, _rest, h => by simp [valFuel] at h
  | WireVal.wStruct sname fs, fuel + 1, rest, h => by
    have hf : fieldsFuel fs ≤ fuel := by
      simp only [valFuel] at h
      omega
    have hs := skipFields_enc fs fuel (Tok.tStructEnd :: rest) hf
    show skipTT (fuel + 1) TType.STRUCT
        (Tok.tStructBegin sname :: ((encodeFields fs ++ [Tok.tFieldStop, Tok.tStructEnd]) ++ rest))
        = some rest
    have hl : (encodeFields fs ++ [Tok.tFieldStop, Tok.tStructEnd]) ++ rest
        = encodeFields fs ++ (Tok.tFieldStop :: (Tok.tStructEnd :: rest)) := by simp
    rw [hl]
    have step : skipTT (fuel + 1) TType.STRUCT
        (Tok.tStructBegin sname :: (encodeFields fs ++ (Tok.tFieldStop :: (Tok.tStructEnd :: rest))))
        = (match skipFields fuel (encodeFields fs ++ (Tok.tFieldStop :: (Tok.tStructEnd :: rest))) with
           | some (Tok.tStructEnd :: r2) => some r2
           | _ => none) := rfl
    rw [step, hs]

/-- The field loop of `skip` consumes exactly the encoded fields and the stop
marker, given enough fuel. -/
theorem skipFields_enc : ∀ (fs : WireFields) (fuel : Nat) (rest : List Tok),
    fieldsFuel fs ≤ fuel →
    skipFields fuel (encodeFields fs ++ (Tok.tFieldStop :: rest)) = some rest
  | WireFields.wfNil, 0, _rest, h => by simp [fieldsFuel] at h
  | WireFields.wfNil, _fuel + 1, _rest, _h => rfl
  | WireFields.wfCons fname fid v fs, 0, _rest, h => by simp [fieldsFuel] at h
  | WireFields.wfCons fname fid v fs, fuel + 1, rest, h => by
    have h1 : valFuel v ≤ fuel := by
      simp only [fieldsFuel] at h
      omega
    have h2 : fieldsFuel fs ≤ fuel := by
      simp only [fieldsFuel] at h
      omega
    show skipFields (fuel + 1)
        (Tok.tFieldBegin fname (wireType v) fid ::
          ((encodeVal v ++ (Tok.tFieldEnd :: encodeFields fs)) ++ (Tok.tFieldStop :: rest)))
        = some rest
    simp only [skipFields, readFieldBegin, List.append_assoc, List.cons_append, List.nil_append]
    rw [if_neg (wireType_ne_stop v)]
    rw [skipTT_enc v fuel (Tok.tFieldEnd :: (encodeFields fs ++ (Tok.tFieldStop :: rest))) h1]
    exact skipFields_enc fs fuel rest h2

end

/-- The generated list-element loop consumes exactly a list of encoded
strings, appending them to the accumulator. -/
theorem readListElems_map : ∀ (xs acc : List String) (rest : List Tok),
    readListElems xs.length acc (xs.map Tok.tString ++ rest) = some (acc ++ xs, rest)
  | [], acc, rest => by simp [readListElems]
  | x :: xs, acc, rest => by
    show readListElems (xs.length + 1) acc (Tok.tString x :: (xs.map Tok.tString ++ rest))
        = some (acc ++ (x :: xs), rest)
    simp only [readListElems, readString]
    rw [readListElems_map xs (acc ++ [x]) rest]
    simp

/-- An unknown-id or type-mismatched field at the head of the stream is
skipped by `execute_args.readFields` and the rest decodes unchanged. -/
theorem execute_args_skips_unknown (fuel : Nat) (acc : execute_args) (fname : String)
    (fid : Int) (v : WireVal) (ts : List Tok)
    (hfid : fid ≠ 1 ∨ wireType v ≠ TType.STRING) (hfuel : valFuel v ≤ fuel) :
    execute_args.readFields (fuel + 1) acc
      (Tok.tFieldBegin fname (wireType v) fid :: (encodeVal v ++ (Tok.tFieldEnd :: ts)))
      = execute_args.readFields fuel acc ts := by
  have hskip := skipTT_enc v fuel (Tok.tFieldEnd :: ts) hfuel
  simp only [execute_args.readFields, readFieldBegin]
  rw [if_neg (wireType_ne_stop v)]
  by_cases hf : fid = 1
  · subst hf
    rcases hfid with hfid | hty
    · exact absurd rfl hfid
    · rw [if_pos rfl, if_neg hty, hskip]
      rfl
  · rw [if_neg hf, hskip]
    rfl

/-- An unknown-id or type-mismatched field at the head of the stream is
skipped by `execute_result.readFields` and the rest decodes unchanged. -/
theorem execute_result_skips_unknown (fuel : Nat) (acc : execute_result) (fname : String)
    (fid : Int) (v : WireVal) (ts : List Tok)
    (hfid : fid ≠ 1 ∨ wireType v ≠ TType.STRUCT) (hfuel : valFuel v ≤ fuel) :
    execute_result.readFields (fuel + 1) acc
      (Tok.tFieldBegin fname (wireType v) fid :: (encodeVal v ++ (Tok.tFieldEnd :: ts)))
      = execute_result.readFields fuel acc ts := by
  have hskip := skipTT_enc v fuel (Tok.tFieldEnd :: ts) hfuel
  simp only [execute_result.readFields, readFieldBegin]
  rw [if_neg (wireType_ne_stop v)]
  by_cases hf : fid = 1
  · subst hf
    rcases hfid with hfid | hty
    · exact absurd rfl hfid
    · rw [if_pos rfl, if_neg hty, hskip]
      rfl
  · rw [if_neg hf, hskip]
    rfl

/-- Every field is skipped by `fetchOne_args.readFields` (the struct has no
declared fields) and the rest decodes unchanged. -/
theorem fetchOne_args_skips_unknown (fuel : Nat) (acc : fetchOne_args) (fname : String)
    (fid : Int) (v : WireVal) (ts : List Tok) (hfuel : valFuel v ≤ fuel) :
    fetchOne_args.readFields (fuel + 1) acc
      (Tok.tFieldBegin fname (wireType v) fid :: (encodeVal v ++ (Tok.tFieldEnd :: ts)))
      = fetchOne_args.readFields fuel acc ts := by
  have hskip := skipTT_enc v fuel (Tok.tFieldEnd :: ts) hfuel
  simp only [fetchOne_args.readFields, readFieldBegin]
  rw [if_neg (wireType_ne_stop v), hskip]
  rfl

/-- An unknown-id or type-mismatched field at the head of the stream is
skipped by `fetchOne_result.readFields` and the rest decodes unchanged. -/
theorem fetchOne_result_skips_unknown (fuel : Nat) (acc : fetchOne_result) (fname : String)
    (fid : Int) (v : WireVal) (ts : List Tok)
    (hfid0 : fid ≠ 0 ∨ wireType v ≠ TType.STRING)
    (hfid1 : fid ≠ 1 ∨ wireType v ≠ TType.STRUCT) (hfuel : valFuel v ≤ fuel) :
    fetchOne_result.readFields (fuel + 1) acc
      (Tok.tFieldBegin fname (wireType v) fid :: (encodeVal v ++ (Tok.tFieldEnd :: ts)))
      = fetchOne_result.readFields fuel acc ts := by
  have hskip := skipTT_enc v fuel (Tok.tFieldEnd :: ts) hfuel
  simp only [fetchOne_result.readFields, readFieldBegin]
  rw [if_neg (wireType_ne_stop v)]
  by_cases hf0 : fid = 0
  · subst hf0
    rcases hfid0 with hfid | hty
    · exact absurd rfl hfid
    · rw [if_pos rfl, if_neg hty, hskip]
      rfl
  · rw [if_neg hf0]
    by_cases hf1 : fid = 1
    · subst hf1
      rcases hfid1 with hfid | hty
      · exact absurd rfl hfid
      · rw [if_pos rfl, if_neg hty, hskip]
        rfl
    · rw [if_neg hf1, hskip]
      rfl

/-- An unknown-id or type-mismatched field at the head of the stream is
skipped by `fetchN_args.readFields` and the rest decodes unchanged. -/
theorem fetchN_args_skips_unknown (fuel : Nat) (acc : fetchN_args) (fname : String)
    (fid : Int) (v : WireVal) (ts : List Tok)
    (hfid : fid ≠ 1 ∨ wireType v ≠ TType.I32) (hfuel : valFuel v ≤ fuel) :
    fetchN_args.readFields (fuel + 1) acc
      (Tok.tFieldBegin fname (wireType v) fid :: (encodeVal v ++ (Tok.tFieldEnd :: ts)))
      = fetchN_args.readFields fuel acc ts := by
  have hskip := skipTT_enc v fuel (Tok.tFieldEnd :: ts) hfuel
  simp only [fetchN_args.readFields, readFieldBegin]
  rw [if_neg (wireType_ne_stop v)]
  by_cases hf : fid = 1
  · subst hf
    rcases hfid with hfid | hty
    · exact absurd rfl hfid
    · rw [if_pos rfl, if_neg hty, hskip]
      rfl
  · rw [if_neg hf, hskip]
    rfl

/-- An unknown-id or type-mismatched field at the head of the stream is
skipped by `fetchN_result.readFields` and the rest decodes unchanged. -/
theorem fetchN_result_skips_unknown (fuel : Nat) (acc : fetchN_result) (fname : String)
    (fid : Int) (v : WireVal) (ts : List Tok)
    (hfid0 : fid ≠ 0 ∨ wireType v ≠ TType.LIST)
    (hfid1 : fid ≠ 1 ∨ wireType v ≠ TType.STRUCT) (hfuel : valFuel v ≤ fuel) :
    fetchN_result.readFields (fuel + 1) acc
      (Tok.tFieldBegin fname (wireType v) fid :: (encodeVal v ++ (Tok.tFieldEnd :: ts)))
      = fetchN_result.readFields fuel acc ts := by
  have hskip := skipTT_enc v fuel (Tok.tFieldEnd :: ts) hfuel
  simp only [fetchN_result.readFields, readFieldBegin]
  rw [if_neg (wireType_ne_stop v)]
  by_cases hf0 : fid = 0
  · subst hf0
    rcases hfid0 with hfid | hty
    · exact absurd rfl hfid
    · rw [if_pos rfl, if_neg hty, hskip]
      rfl
  · rw [if_neg hf0]
    by_cases hf1 : fid = 1
    · subst hf1
      rcases hfid1 with hfid | hty
      · exact absurd rfl hfid
      · rw [if_pos rfl, if_neg hty, hskip]
        rfl
    · rw [if_neg hf1, hskip]
      rfl

/-- Every field is skipped by `fetchAll_args.readFields` (the struct has no
declared fields) and the rest decodes unchanged. -/
theorem fetchAll_args_skips_unknown (fuel : Nat) (acc : fetchAll_args) (fname : String)
    (fid : Int) (v : WireVal) (ts : List Tok) (hfuel : valFuel v ≤ fuel) :
    fetchAll_args.readFields (fuel + 1) acc
      (Tok.tFieldBegin fname (wireType v) fid :: (encodeVal v ++ (Tok.tFieldEnd :: ts)))
      = fetchAll_args.readFields fuel acc ts := by
  have hskip := skipTT_enc v fuel (Tok.tFieldEnd :: ts) hfuel
  simp only [fetchAll_args.readFields, readFieldBegin]
  rw [if_neg (wireType_ne_stop v), hskip]
  rfl

/-- An unknown-id or type-mismatched field at the head of the stream is
skipped by `fetchAll_result.readFields` and the rest decodes unchanged. -/
theorem fetchAll_result_skips_unknown (fuel : Nat) (acc : fetchAll_result) (fname : String)
    (fid : Int) (v : WireVal) (ts : List Tok)
    (hfid0 : fid ≠ 0 ∨ wireType v ≠ TType.LIST)
    (hfid1 : fid ≠ 1 ∨ wireType v ≠ TType.STRUCT) (hfuel : valFuel v ≤ fuel) :
    fetchAll_result.readFields (fuel + 1) acc
      (Tok.tFieldBegin fname (wireType v) fid :: (encodeVal v ++ (Tok.tFieldEnd :: ts)))
      = fetchAll_result.readFields fuel acc ts := by
  have hskip := skipTT_enc v fuel (Tok.tFieldEnd :: ts) hfuel
  simp only [fetchAll_result.readFields, readFieldBegin]
  rw [if_neg (wireType_ne_stop v)]
  by_cases hf0 : fid = 0
  · subst hf0
    rcases hfid0 with hfid | hty
    · exact absurd rfl hfid
    · rw [if_pos rfl, if_neg hty, hskip]
      rfl
  · rw [if_neg hf0]
    by_cases hf1 : fid = 1
    · subst hf1
      rcases hfid1 with hfid | hty
      · exact absurd rfl hfid
      · rw [if_pos rfl, if_neg hty, hskip]
        rfl
    · rw [if_neg hf1, hskip]
      rfl

/-- Every field is skipped by `getSchema_args.readFields` (the struct has no
declared fields) and the rest decodes unchanged. -/
theorem getSchema_args_skips_unknown (fuel : Nat) (acc : getSchema_args) (fname : String)
    (fid : Int) (v : WireVal) (ts : List Tok) (hfuel : valFuel v ≤ fuel) :
    getSchema_args.readFields (fuel + 1) acc
      (Tok.tFieldBegin fname (wireType v) fid :: (encodeVal v ++ (Tok.tFieldEnd :: ts)))
      = getSchema_args.readFields fuel acc ts := by
  have hskip := skipTT_enc v fuel (Tok.tFieldEnd :: ts) hfuel
  simp only [getSchema_args.readFields, readFieldBegin]
  rw [if_neg (wireType_ne_stop v), hskip]
  rfl

/-- An unknown-id or type-mismatched field at the head of the stream is
skipped by `getSchema_result.readFields` and the rest decodes unchanged. -/
theorem getSchema_result_skips_unknown (fuel : Nat) (acc : getSchema_result) (fname : String)
    (fid : Int) (v : WireVal) (ts : List Tok)
    (hfid0 : fid ≠ 0 ∨ wireType v ≠ TType.STRING)
    (hfid1 : fid ≠ 1 ∨ wireType v ≠ TType.STRUCT) (hfuel : valFuel v ≤ fuel) :
    getSchema_result.readFields (fuel + 1) acc
      (Tok.tFieldBegin fname (wireType v) fid :: (encodeVal v ++ (Tok.tFieldEnd :: ts)))
      = getSchema_result.readFields fuel acc ts := by
  have hskip := skipTT_enc v fuel (Tok.tFieldEnd :: ts) hfuel
  simp only [getSchema_result.readFields, readFieldBegin]
  rw [if_neg (wireType_ne_stop v)]
  by_cases hf0 : fid = 0
  · subst hf0
    rcases hfid0 with hfid | hty
    · exact absurd rfl hfid
    · rw [if_pos rfl, if_neg hty, hskip]
      rfl
  · rw [if_neg hf0]
    by_cases hf1 : fid = 1
    · subst hf1
      rcases hfid1 with hfid | hty
      · exact absurd rfl hfid
      · rw [if_pos rfl, if_neg hty, hskip]
        rfl
    · rw [if_neg hf1, hskip]
      rfl

/-- Handler whose five methods all return normally; used as a concrete
handler instance. -/
def idleHandler : Handler :=
  { execute := fun _ => HandlerOutcome.ok ()
    fetchOne := HandlerOutcome.ok ""
    fetchN := fun _ => HandlerOutcome.ok []
    fetchAll := HandlerOutcome.ok []
    getSchema := HandlerOutcome.ok "" }

/-- Handler whose `execute` raises an exception that is not the declared
`HiveServerException`; used as a concrete handler instance. -/
def failingHandler : Handler :=
  { execute := fun _ => HandlerOutcome.otherEx 7
    fetchOne := HandlerOutcome.ok ""
    fetchN := fun _ => HandlerOutcome.ok []
    fetchAll := HandlerOutcome.ok []
    getSchema := HandlerOutcome.ok "" }

/-- C1: for each of the client operations `fetchOne`, `fetchN`, `fetchAll`
and `getSchema`, the decoded-result dispatch of the `recv_*` stub returns
the value when only `success` is populated, raises the carried declared
exception when only `ex` is populated, and raises the
`TApplicationException` with reason code `MISSING_RESULT` when neither is
populated. -/
theorem client_recv_result_dispatch :
    (∀ v : String, recv_fetchOne { success := some v, ex := none } = ClientOutcome.ret v) ∧
    (∀ e : HiveServerException,
      recv_fetchOne { success := none, ex := some e } = ClientOutcome.threw e) ∧
    recv_fetchOne { success := none, ex := none } =
      ClientOutcome.appError
        { message := some "fetchOne failed: unknown result"
          type := some TApplicationException.MISSING_RESULT } ∧
    (∀ v : List String, recv_fetchN { success := some v, ex := none } = ClientOutcome.ret v) ∧
    (∀ e : HiveServerException,
      recv_fetchN { success := none, ex := some e } = ClientOutcome.threw e) ∧
    recv_fetchN { success := none, ex := none } =
      ClientOutcome.appError
        { message := some "fetchN failed: unknown result"
          type := some TApplicationException.MISSING_RESULT } ∧
    (∀ v : List String, recv_fetchAll { success := some v, ex := none } = ClientOutcome.ret v) ∧
    (∀ e : HiveServerException,
      recv_fetchAll { success := none, ex := some e } = ClientOutcome.threw e) ∧
    recv_fetchAll { success := none, ex := none } =
      ClientOutcome.appError
        { message := some "fetchAll failed: unknown result"
          type := some TApplicationException.MISSING_RESULT } ∧
    (∀ v : String, recv_getSchema { success := some v, ex := none } = ClientOutcome.ret v) ∧
    (∀ e : HiveServerException,
      recv_getSchema { success := none, ex := some e } = ClientOutcome.threw e) ∧
    recv_getSchema { success := none, ex := none } =
      ClientOutcome.appError
        { message := some "getSchema failed: unknown result"
          type := some TApplicationException.MISSING_RESULT } :=
  ⟨fun _ => rfl, fun _ => rfl, rfl, fun _ => rfl, fun _ => rfl, rfl,
   fun _ => rfl, fun _ => rfl, rfl, fun _ => rfl, fun _ => rfl, rfl⟩

/-- C8: a `fetchN` reply with a zero-length `success` list round-trips as an
empty sequence: encoding `success = []` produces a zero-length list field,
decoding that encoding yields `success = some []`, and `recv_fetchN` returns
the empty list rather than raising the missing-result error. -/
theorem fetchN_empty_list_ok :
    fetchN_result.write { success := some [], ex := none } =
      [Tok.tStructBegin "fetchN_result", Tok.tFieldBegin "success" TType.LIST 0,
       Tok.tListBegin TType.STRING 0, Tok.tListEnd, Tok.tFieldEnd,
       Tok.tFieldStop, Tok.tStructEnd] ∧
    fetchN_result.read 2 (fetchN_result.write { success := some [], ex := none })
      = some ({ success := some [], ex := none }, []) ∧
    recv_fetchN { success := some [], ex := none } = ClientOutcome.ret [] :=
  ⟨rfl, rfl, rfl⟩

/-- C9: `recv_execute` has no missing-result guard: a decoded `execute`
reply with `ex = none` (in particular the reply struct carrying no fields at
all) returns normally, and no decoded reply ever yields an application
error from `recv_execute` — its only outcomes are a normal return or the
declared exception carried in `ex`. -/
theorem recv_execute_no_missing_result_guard :
    recv_execute { ex := none } = ClientOutcome.ret () ∧
    (∀ r : execute_result,
      recv_execute r = ClientOutcome.ret () ∨
        ∃ e, r.ex = some e ∧ recv_execute r = ClientOutcome.threw e) ∧
    execute_result.read 1 [Tok.tStructBegin "execute_result", Tok.tFieldStop, Tok.tStructEnd]
      = some ({ ex := none }, []) := by
  refine ⟨rfl, ?_, rfl⟩
  intro r
  rcases r with ⟨(_ | e)⟩
  · exact Or.inl rfl
  · exact Or.inr ⟨e, rfl, rfl⟩

/-- C10: when a decoded result struct has both `success` and `ex` populated,
the client checks `success` first and returns it, silently discarding the
carried exception, for each of `fetchOne`, `fetchN`, `fetchAll` and
`getSchema`. -/
theorem recv_success_shadows_exception :
    (∀ (v : String) (e : HiveServerException),
      recv_fetchOne { success := some v, ex := some e } = ClientOutcome.ret v) ∧
    (∀ (v : List String) (e : HiveServerException),
      recv_fetchN { success := some v, ex := some e } = ClientOutcome.ret v) ∧
    (∀ (v : List String) (e : HiveServerException),
      recv_fetchAll { success := some v, ex := some e } = ClientOutcome.ret v) ∧
    (∀ (v : String) (e : HiveServerException),
      recv_getSchema { success := some v, ex := some e } = ClientOutcome.ret v) :=
  ⟨fun _ _ => rfl, fun _ _ => rfl, fun _ _ => rfl, fun _ _ => rfl⟩

/-- C4: `Client.execute` is void-typed; a decoded reply with `ex` populated
raises the declared exception, one with `ex = none` returns normally; the
call writes exactly one `CALL` message, and receiving consumes exactly one
reply message from the input stream (leaving the remainder untouched). -/
theorem client_execute_contract :
    (∀ e : HiveServerException,
      recv_execute { ex := some e } = ClientOutcome.threw e) ∧
    recv_execute { ex := none } = ClientOutcome.ret () ∧
    (∀ (seqid : Int) (query : Option String) (fuel : Nat) (its : List Tok),
      countMessages (Client.execute seqid query fuel its).1 = 1) ∧
    (∀ (k : Nat) (seqid rseq : Int) (query : Option String)
        (e : Option HiveServerException) (rest : List Tok),
      (Client.execute seqid query (k + 1 + 1 + 1 + 1 + 1)
        (Tok.tMessageBegin "execute" TMessageType.REPLY rseq ::
          (execute_result.write { ex := e } ++ (Tok.tMessageEnd :: rest)))).2
        = some (recv_execute { ex := e }, rest)) := by
  refine ⟨fun _ => rfl, rfl, ?_, ?_⟩
  · intro seqid query fuel its
    cases query <;> rfl
  · intro k seqid rseq query e rest
    rcases e with (_ | ⟨(_ | m)⟩) <;> rfl

/-- C5: every result struct a dispatch method hands to `write` has at most
one of `success` and `ex` populated: for the four value-returning
operations, any reply struct built by the `try/except` block satisfies
`¬(success populated ∧ ex populated)`; for the void `execute`, whose result
struct has no `success` field, `ex` is populated exactly when the handler
raised the declared exception. -/
theorem server_result_exclusive :
    (∀ (o : HandlerOutcome String) (r : fetchOne_result),
      run_fetchOne o = Except.ok r → ¬(r.success.isSome = true ∧ r.ex.isSome = true)) ∧
    (∀ (o : HandlerOutcome (List String)) (r : fetchN_result),
      run_fetchN o = Except.ok r → ¬(r.success.isSome = true ∧ r.ex.isSome = true)) ∧
    (∀ (o : HandlerOutcome (List String)) (r : fetchAll_result),
      run_fetchAll o = Except.ok r → ¬(r.success.isSome = true ∧ r.ex.isSome = true)) ∧
    (∀ (o : HandlerOutcome String) (r : getSchema_result),
      run_getSchema o = Except.ok r → ¬(r.success.isSome = true ∧ r.ex.isSome = true)) ∧
    (∀ (o : HandlerOutcome Unit) (r : execute_result),
      run_execute o = Except.ok r →
        (r.ex = none ∨ ∃ e, o = HandlerOutcome.hiveEx e ∧ r.ex = some e)) := by
  refine ⟨?_, ?_, ?_, ?_, ?_⟩
  · intro o r hr
    cases o with
    | ok v =>
      simp only [run_fetchOne] at hr
      injection hr with h2
      subst h2
      simp
    | hiveEx e =>
      simp only [run_fetchOne] at hr
      injection hr with h2
      subst h2
      simp
    | otherEx n =>
      simp only [run_fetchOne] at hr
      exact absurd hr (by simp)
  · intro o r hr
    cases o with
    | ok v =>
      simp only [run_fetchN] at hr
      injection hr with h2
      subst h2
      simp
    | hiveEx e =>
      simp only [run_fetchN] at hr
      injection hr with h2
      subst h2
      simp
    | otherEx n =>
      simp only [run_fetchN] at hr
      exact absurd hr (by simp)
  · intro o r hr
    cases o with
    | ok v =>
      simp only [run_fetchAll] at hr
      injection hr with h2
      subst h2
      simp
    | hiveEx e =>
      simp only [run_fetchAll] at hr
      injection hr with h2
      subst h2
      simp
    | otherEx n =>
      simp only [run_fetchAll] at hr
      exact absurd hr (by simp)
  · intro o r hr
    cases o with
    | ok v =>
      simp only [run_getSchema] at hr
      injection hr with h2
      subst h2
      simp
    | hiveEx e =>
      simp only [run_getSchema] at hr
      injection hr with h2
      subst h2
      simp
    | otherEx n =>
      simp only [run_getSchema] at hr
      exact absurd hr (by simp)
  · intro o r hr
    cases o with
    | ok v =>
      simp only [run_execute] at hr
      injection hr with h2
      subst h2
      exact Or.inl rfl
    | hiveEx e =>
      simp only [run_execute] at hr
      injection hr with h2
      subst h2
      exact Or.inr ⟨e, rfl, rfl⟩
    | otherEx n =>
      simp only [run_execute] at hr
      exact absurd hr (by simp)

/-- Witness for C5 at a concrete handler behaviour. -/
theorem server_result_exclusive_check :
    run_fetchOne (HandlerOutcome.ok "row") = Except.ok { success := some "row", ex := none } ∧
    ¬(({ success := some "row", ex := none } : fetchOne_result).success.isSome = true ∧
      ({ success := some "row", ex := none } : fetchOne_result).ex.isSome = true) :=
  ⟨rfl, server_result_exclusive.1 (HandlerOutcome.ok "row") { success := some "row", ex := none } rfl⟩

/-- C6: each dispatch method catches exactly the declared
`HiveServerException`, storing it in the result's `ex` field, while any
other exception propagates uncaught out of the dispatch method
(`ProcOut.propagated`), in which case nothing is written to the output
protocol. -/
theorem server_catches_only_hive_exception :
    (∀ e, run_execute (HandlerOutcome.hiveEx e) = Except.ok { ex := some e }) ∧
    (∀ n, run_execute (HandlerOutcome.otherEx n) = Except.error n) ∧
    (∀ e, run_fetchOne (HandlerOutcome.hiveEx e) = Except.ok { success := none, ex := some e }) ∧
    (∀ n, run_fetchOne (HandlerOutcome.otherEx n) = Except.error n) ∧
    (∀ e, run_fetchN (HandlerOutcome.hiveEx e) = Except.ok { success := none, ex := some e }) ∧
    (∀ n, run_fetchN (HandlerOutcome.otherEx n) = Except.error n) ∧
    (∀ e, run_fetchAll (HandlerOutcome.hiveEx e) = Except.ok { success := none, ex := some e }) ∧
    (∀ n, run_fetchAll (HandlerOutcome.otherEx n) = Except.error n) ∧
    (∀ e, run_getSchema (HandlerOutcome.hiveEx e) = Except.ok { success := none, ex := some e }) ∧
    (∀ n, run_getSchema (HandlerOutcome.otherEx n) = Except.error n) ∧
    (∀ (h : Handler) (seqid : Int) (fuel : Nat) (its r1 r2 : List Tok)
        (args : execute_args) (n : Nat),
      execute_args.read fuel its = some (args, r1) →
      readMessageEnd r1 = some r2 →
      h.execute args.query = HandlerOutcome.otherEx n →
      process_execute h seqid fuel its = some (ProcOut.propagated n)) := by
  refine ⟨fun _ => rfl, fun _ => rfl, fun _ => rfl, fun _ => rfl, fun _ => rfl, fun _ => rfl,
    fun _ => rfl, fun _ => rfl, fun _ => rfl, fun _ => rfl, ?_⟩
  intro h seqid fuel its r1 r2 args n h1 h2 h3
  simp [process_execute, h1, h2, h3, run_execute]

/-- Witness for C6 at a concrete handler raising an undeclared exception. -/
theorem server_catches_only_hive_exception_check :
    execute_args.read 2 (execute_args.write { query := some "q" } ++ [Tok.tMessageEnd])
      = some ({ query := some "q" }, [Tok.tMessageEnd]) ∧
    readMessageEnd [Tok.tMessageEnd] = some [] ∧
    failingHandler.execute (some "q") = HandlerOutcome.otherEx 7 ∧
    process_execute failingHandler 3 2 (execute_args.write { query := some "q" } ++ [Tok.tMessageEnd])
      = some (ProcOut.propagated 7) :=
  ⟨rfl, rfl, rfl,
    server_catches_only_hive_exception.2.2.2.2.2.2.2.2.2.2 failingHandler 3 2
      (execute_args.write { query := some "q" } ++ [Tok.tMessageEnd]) [Tok.tMessageEnd] []
      { query := some "q" } 7 rfl rfl rfl⟩

/-- C2: a message whose name is in neither the five registered entries nor
the inherited table is answered by skipping the request payload as a
struct, ending the message, and writing one `EXCEPTION` envelope framing
`TApplicationException` with reason code `UNKNOWN_METHOD`; the outcome does
not depend on the handler, so no handler method runs, and the Python method
returns `None`. -/
theorem process_unknown_method_reply (h : Handler) (baseKeys : List String)
    (baseRun : String → Int → List Tok → Option ProcOut) (fuel : Nat)
    (name sname : String) (mtype : Nat) (seqid : Int) (fs : WireFields) (rest : List Tok)
    (hmain : name ∉ processKeys) (hbase : name ∉ baseKeys)
    (hfuel : valFuel (WireVal.wStruct sname fs) ≤ fuel) :
    process h baseKeys baseRun fuel
      (Tok.tMessageBegin name mtype seqid ::
        (encodeVal (WireVal.wStruct sname fs) ++ (Tok.tMessageEnd :: rest)))
      = some (ProcOut.done none
          (Tok.tMessageBegin name TMessageType.EXCEPTION seqid ::
            (TApplicationException.write
              { message := some (String.append "Unknown function " name)
                type := some TApplicationException.UNKNOWN_METHOD } ++ [Tok.tMessageEnd]))) := by
  have hskip := skipTT_enc (WireVal.wStruct sname fs) fuel (Tok.tMessageEnd :: rest) hfuel
  rw [show wireType (WireVal.wStruct sname fs) = TType.STRUCT from rfl] at hskip
  simp only [process, readMessageBegin]
  rw [if_neg hmain, if_neg hbase, hskip]
  rfl

/-- Witness for C2 at a concrete unknown method name. -/
theorem process_unknown_method_reply_check :
    ("nope" ∉ processKeys) ∧ ("nope" ∉ ([] : List String)) ∧
    valFuel (WireVal.wStruct "junk" WireFields.wfNil) ≤ 2 ∧
    process idleHandler [] (fun _ _ _ => none) 2
      (Tok.tMessageBegin "nope" TMessageType.CALL 9 ::
        (encodeVal (WireVal.wStruct "junk" WireFields.wfNil) ++ (Tok.tMessageEnd :: [])))
      = some (ProcOut.done none
          (Tok.tMessageBegin "nope" TMessageType.EXCEPTION 9 ::
            (TApplicationException.write
              { message := some (String.append "Unknown function " "nope")
                type := some TApplicationException.UNKNOWN_METHOD } ++ [Tok.tMessageEnd]))) :=
  ⟨by decide, by decide, by decide,
    process_unknown_method_reply idleHandler [] (fun _ _ _ => none) 2 "nope" "junk"
      TMessageType.CALL 9 WireFields.wfNil [] (by decide) (by decide) (by decide)⟩

/-- One iteration of the `fetchN_result` field loop consuming an encoded
`success` list field. -/
theorem fetchN_result_readFields_success (f : Nat) (acc : fetchN_result)
    (xs : List String) (ts : List Tok) :
    fetchN_result.readFields (f + 1) acc
      (Tok.tFieldBegin "success" TType.LIST 0 ::
        (Tok.tListBegin TType.STRING xs.length ::
          (xs.map Tok.tString ++ (Tok.tListEnd :: (Tok.tFieldEnd :: ts)))))
      = fetchN_result.readFields f { acc with success := some xs } ts := by
  have step : fetchN_result.readFields (f + 1) acc
      (Tok.tFieldBegin "success" TType.LIST 0 ::
        (Tok.tListBegin TType.STRING xs.length ::
          (xs.map Tok.tString ++ (Tok.tListEnd :: (Tok.tFieldEnd :: ts)))))
      = (match readListElems xs.length []
            (xs.map Tok.tString ++ (Tok.tListEnd :: (Tok.tFieldEnd :: ts))) with
         | none => none
         | some (v, r3) =>
           match readListEnd r3 with
           | none => none
           | some r4 =>
             match readFieldEnd r4 with
             | none => none
             | some r5 => fetchN_result.readFields f { acc with success := some v } r5) := rfl
  rw [step, readListElems_map xs [] (Tok.tListEnd :: (Tok.tFieldEnd :: ts))]
  rfl

/-- One iteration of the `fetchAll_result` field loop consuming an encoded
`success` list field. -/
theorem fetchAll_result_readFields_success (f : Nat) (acc : fetchAll_result)
    (xs : List String) (ts : List Tok) :
    fetchAll_result.readFields (f + 1) acc
      (Tok.tFieldBegin "success" TType.LIST 0 ::
        (Tok.tListBegin TType.STRING xs.length ::
          (xs.map Tok.tString ++ (Tok.tListEnd :: (Tok.tFieldEnd :: ts)))))
      = fetchAll_result.readFields f { acc with success := some xs } ts := by
  have step : fetchAll_result.readFields (f + 1) acc
      (Tok.tFieldBegin "success" TType.LIST 0 ::
        (Tok.tListBegin TType.STRING xs.length ::
          (xs.map Tok.tString ++ (Tok.tListEnd :: (Tok.tFieldEnd :: ts)))))
      = (match readListElems xs.length []
            (xs.map Tok.tString ++ (Tok.tListEnd :: (Tok.tFieldEnd :: ts))) with
         | none => none
         | some (v, r3) =>
           match readListEnd r3 with
           | none => none
           | some r4 =>
             match readFieldEnd r4 with
             | none => none
             | some r5 => fetchAll_result.readFields f { acc with success := some v } r5) := rfl
  rw [step, readListElems_map xs [] (Tok.tListEnd :: (Tok.tFieldEnd :: ts))]
  rfl

/-- C3: decode after encode is the identity for every args and result struct
of the five operations, for every assignment of their optional fields, with
any remaining stream left untouched (the fuel `k + 5` covers every field
loop the decode performs). -/
theorem struct_roundtrip :
    (∀ (s : execute_args) (k : Nat) (rest : List Tok),
      execute_args.read (k + 1 + 1 + 1 + 1 + 1) (execute_args.write s ++ rest)
        = some (s, rest)) ∧
    (∀ (s : execute_result) (k : Nat) (rest : List Tok),
      execute_result.read (k + 1 + 1 + 1 + 1 + 1) (execute_result.write s ++ rest)
        = some (s, rest)) ∧
    (∀ (s : fetchOne_args) (k : Nat) (rest : List Tok),
      fetchOne_args.read (k + 1 + 1 + 1 + 1 + 1) (fetchOne_args.write s ++ rest)
        = some (s, rest)) ∧
    (∀ (s : fetchOne_result) (k : Nat) (rest : List Tok),
      fetchOne_result.read (k + 1 + 1 + 1 + 1 + 1) (fetchOne_result.write s ++ rest)
        = some (s, rest)) ∧
    (∀ (s : fetchN_args) (k : Nat) (rest : List Tok),
      fetchN_args.read (k + 1 + 1 + 1 + 1 + 1) (fetchN_args.write s ++ rest)
        = some (s, rest)) ∧
    (∀ (s : fetchN_result) (k : Nat) (rest : List Tok),
      fetchN_result.read (k + 1 + 1 + 1 + 1 + 1) (fetchN_result.write s ++ rest)
        = some (s, rest)) ∧
    (∀ (s : fetchAll_args) (k : Nat) (rest : List Tok),
      fetchAll_args.read (k + 1 + 1 + 1 + 1 + 1) (fetchAll_args.write s ++ rest)
        = some (s, rest)) ∧
    (∀ (s : fetchAll_result) (k : Nat) (rest : List Tok),
      fetchAll_result.read (k + 1 + 1 + 1 + 1 + 1) (fetchAll_result.write s ++ rest)
        = some (s, rest)) ∧
    (∀ (s : getSchema_args) (k : Nat) (rest : List Tok),
      getSchema_args.read (k + 1 + 1 + 1 + 1 + 1) (getSchema_args.write s ++ rest)
        = some (s, rest)) ∧
    (∀ (s : getSchema_result) (k : Nat) (rest : List Tok),
      getSchema_result.read (k + 1 + 1 + 1 + 1 + 1) (getSchema_result.write s ++ rest)
        = some (s, rest)) := by
  refine ⟨?_, ?_, ?_, ?_, ?_, ?_, ?_, ?_, ?_, ?_⟩
  · intro s k rest
    rcases s with ⟨(_ | q)⟩ <;> rfl
  · intro s k rest
    rcases s with ⟨(_ | ⟨(_ | m)⟩)⟩ <;> rfl
  · intro s k rest
    rcases s with ⟨⟩
    rfl
  · intro s k rest
    rcases s with ⟨(_ | v), (_ | ⟨(_ | m)⟩)⟩ <;> rfl
  · intro s k rest
    rcases s with ⟨(_ | n)⟩ <;> rfl
  · intro s k rest
    rcases s with ⟨(_ | xs), ex⟩
    · rcases ex with (_ | ⟨(_ | m)⟩) <;> rfl
    · rcases ex with (_ | ⟨(_ | m)⟩)
      · have hw : fetchN_result.write { success := some xs, ex := none } ++ rest
            = Tok.tStructBegin "fetchN_result" ::
              (Tok.tFieldBegin "success" TType.LIST 0 ::
                (Tok.tListBegin TType.STRING xs.length ::
                  (xs.map Tok.tString ++ (Tok.tListEnd :: (Tok.tFieldEnd ::
                    (Tok.tFieldStop :: (Tok.tStructEnd :: rest))))))) := by
          simp [fetchN_result.write]
        rw [hw]
        show fetchN_result.readFields (k + 1 + 1 + 1 + 1 + 1) { success := none, ex := none }
          (Tok.tFieldBegin "success" TType.LIST 0 ::
            (Tok.tListBegin TType.STRING xs.length ::
              (xs.map Tok.tString ++ (Tok.tListEnd :: (Tok.tFieldEnd ::
                (Tok.tFieldStop :: (Tok.tStructEnd :: rest)))))))
          = some ({ success := some xs, ex := none }, rest)
        rw [fetchN_result_readFields_success]
        rfl
      · have hw : fetchN_result.write { success := some xs, ex := some { message := none } } ++ rest
            = Tok.tStructBegin "fetchN_result" ::
              (Tok.tFieldBegin "success" TType.LIST 0 ::
                (Tok.tListBegin TType.STRING xs.length ::
                  (xs.map Tok.tString ++ (Tok.tListEnd :: (Tok.tFieldEnd ::
                    (Tok.tFieldBegin "ex" TType.STRUCT 1 ::
                      (Tok.tStructBegin "HiveServerException" ::
                        (Tok.tFieldStop :: (Tok.tStructEnd :: (Tok.tFieldEnd ::
                          (Tok.tFieldStop :: (Tok.tStructEnd :: rest)))))))))))) := by
          simp [fetchN_result.write, HiveServerException.write]
        rw [hw]
        show fetchN_result.readFields (k + 1 + 1 + 1 + 1 + 1) { success := none, ex := none }
          (Tok.tFieldBegin "success" TType.LIST 0 ::
            (Tok.tListBegin TType.STRING xs.length ::
              (xs.map Tok.tString ++ (Tok.tListEnd :: (Tok.tFieldEnd ::
                (Tok.tFieldBegin "ex" TType.STRUCT 1 ::
                  (Tok.tStructBegin "HiveServerException" ::
                    (Tok.tFieldStop :: (Tok.tStructEnd :: (Tok.tFieldEnd ::
                      (Tok.tFieldStop :: (Tok.tStructEnd :: rest))))))))))))
          = some ({ success := some xs, ex := some { message := none } }, rest)
        rw [fetchN_result_readFields_success]
        rfl
      · have hw : fetchN_result.write
              { success := some xs, ex := some { message := some m } } ++ rest
            = Tok.tStructBegin "fetchN_result" ::
              (Tok.tFieldBegin "success" TType.LIST 0 ::
                (Tok.tListBegin TType.STRING xs.length ::
                  (xs.map Tok.tString ++ (Tok.tListEnd :: (Tok.tFieldEnd ::
                    (Tok.tFieldBegin "ex" TType.STRUCT 1 ::
                      (Tok.tStructBegin "HiveServerException" ::
                        (Tok.tFieldBegin "message" TType.STRING 1 ::
                          (Tok.tString m :: (Tok.tFieldEnd ::
                            (Tok.tFieldStop :: (Tok.tStructEnd :: (Tok.tFieldEnd ::
                              (Tok.tFieldStop :: (Tok.tStructEnd :: rest))))))))))))))) := by
          simp [fetchN_result.write, HiveServerException.write]
        rw [hw]
        show fetchN_result.readFields (k + 1 + 1 + 1 + 1 + 1) { success := none, ex := none }
          (Tok.tFieldBegin "success" TType.LIST 0 ::
            (Tok.tListBegin TType.STRING xs.length ::
              (xs.map Tok.tString ++ (Tok.tListEnd :: (Tok.tFieldEnd ::
                (Tok.tFieldBegin "ex" TType.STRUCT 1 ::
                  (Tok.tStructBegin "HiveServerException" ::
                    (Tok.tFieldBegin "message" TType.STRING 1 ::
                      (Tok.tString m :: (Tok.tFieldEnd ::
                        (Tok.tFieldStop :: (Tok.tStructEnd :: (Tok.tFieldEnd ::
                          (Tok.tFieldStop :: (Tok.tStructEnd :: rest)))))))))))))))
          = some ({ success := some xs, ex := some { message := some m } }, rest)
        rw [fetchN_result_readFields_success]
        rfl
  · intro s k rest
    rcases s with ⟨⟩
    rfl
  · intro s k rest
    rcases s with ⟨(_ | xs), ex⟩
    · rcases ex with (_ | ⟨(_ | m)⟩) <;> rfl
    · rcases ex with (_ | ⟨(_ | m)⟩)
      · have hw : fetchAll_result.write { success := some xs, ex := none } ++ rest
            = Tok.tStructBegin "fetchAll_result" ::
              (Tok.tFieldBegin "success" TType.LIST 0 ::
                (Tok.tListBegin TType.STRING xs.length ::
                  (xs.map Tok.tString ++ (Tok.tListEnd :: (Tok.tFieldEnd ::
                    (Tok.tFieldStop :: (Tok.tStructEnd :: rest))))))) := by
          simp [fetchAll_result.write]
        rw [hw]
        show fetchAll_result.readFields (k + 1 + 1 + 1 + 1 + 1) { success := none, ex := none }
          (Tok.tFieldBegin "success" TType.LIST 0 ::
            (Tok.tListBegin TType.STRING xs.length ::
              (xs.map Tok.tString ++ (Tok.tListEnd :: (Tok.tFieldEnd ::
                (Tok.tFieldStop :: (Tok.tStructEnd :: rest)))))))
          = some ({ success := some xs, ex := none }, rest)
        rw [fetchAll_result_readFields_success]
        rfl
      · have hw : fetchAll_result.write
              { success := some xs, ex := some { message := none } } ++ rest
            = Tok.tStructBegin "fetchAll_result" ::
              (Tok.tFieldBegin "success" TType.LIST 0 ::
                (Tok.tListBegin TType.STRING xs.length ::
                  (xs.map Tok.tString ++ (Tok.tListEnd :: (Tok.tFieldEnd ::
                    (Tok.tFieldBegin "ex" TType.STRUCT 1 ::
                      (Tok.tStructBegin "HiveServerException" ::
                        (Tok.tFieldStop :: (Tok.tStructEnd :: (Tok.tFieldEnd ::
                          (Tok.tFieldStop :: (Tok.tStructEnd :: rest)))))))))))) := by
          simp [fetchAll_result.write, HiveServerException.write]
        rw [hw]
        show fetchAll_result.readFields (k + 1 + 1 + 1 + 1 + 1) { success := none, ex := none }
          (Tok.tFieldBegin "success" TType.LIST 0 ::
            (Tok.tListBegin TType.STRING xs.length ::
              (xs.map Tok.tString ++ (Tok.tListEnd :: (Tok.tFieldEnd ::
                (Tok.tFieldBegin "ex" TType.STRUCT 1 ::
                  (Tok.tStructBegin "HiveServerException" ::
                    (Tok.tFieldStop :: (Tok.tStructEnd :: (Tok.tFieldEnd ::
                      (Tok.tFieldStop :: (Tok.tStructEnd :: rest))))))))))))
          = some ({ success := some xs, ex := some { message := none } }, rest)
        rw [fetchAll_result_readFields_success]
        rfl
      · have hw : fetchAll_result.write
              { success := some xs, ex := some { message := some m } } ++ rest
            = Tok.tStructBegin "fetchAll_result" ::
              (Tok.tFieldBegin "success" TType.LIST 0 ::
                (Tok.tListBegin TType.STRING xs.length ::
                  (xs.map Tok.tString ++ (Tok.tListEnd :: (Tok.tFieldEnd ::
                    (Tok.tFieldBegin "ex" TType.STRUCT 1 ::
                      (Tok.tStructBegin "HiveServerException" ::
                        (Tok.tFieldBegin "message" TType.STRING 1 ::
                          (Tok.tString m :: (Tok.tFieldEnd ::
                            (Tok.tFieldStop :: (Tok.tStructEnd :: (Tok.tFieldEnd ::
                              (Tok.tFieldStop :: (Tok.tStructEnd :: rest))))))))))))))) := by
          simp [fetchAll_result.write, HiveServerException.write]
        rw [hw]
        show fetchAll_result.readFields (k + 1 + 1 + 1 + 1 + 1) { success := none, ex := none }
          (Tok.tFieldBegin "success" TType.LIST 0 ::
            (Tok.tListBegin TType.STRING xs.length ::
              (xs.map Tok.tString ++ (Tok.tListEnd :: (Tok.tFieldEnd ::
                (Tok.tFieldBegin "ex" TType.STRUCT 1 ::
                  (Tok.tStructBegin "HiveServerException" ::
                    (Tok.tFieldBegin "message" TType.STRING 1 ::
                      (Tok.tString m :: (Tok.tFieldEnd ::
                        (Tok.tFieldStop :: (Tok.tStructEnd :: (Tok.tFieldEnd ::
                          (Tok.tFieldStop :: (Tok.tStructEnd :: rest)))))))))))))))
          = some ({ success := some xs, ex := some { message := some m } }, rest)
        rw [fetchAll_result_readFields_success]
        rfl
  · intro s k rest
    rcases s with ⟨⟩
    rfl
  · intro s k rest
    rcases s with ⟨(_ | v), (_ | ⟨(_ | m)⟩)⟩ <;> rfl

/-- C7: in every struct field loop, a field header whose id is not in the
struct's tag table, or whose wire type does not match the expected type of a
known id, is skipped (for any well-formed payload) without a decode
failure, and decoding continues on the remaining fields with the
accumulated known fields unaffected. -/
theorem read_skips_unknown_fields :
    (∀ (fuel : Nat) (acc : execute_args) (fname : String) (fid : Int) (v : WireVal)
        (ts : List Tok), (fid ≠ 1 ∨ wireType v ≠ TType.STRING) → valFuel v ≤ fuel →
      execute_args.readFields (fuel + 1) acc
        (Tok.tFieldBegin fname (wireType v) fid :: (encodeVal v ++ (Tok.tFieldEnd :: ts)))
        = execute_args.readFields fuel acc ts) ∧
    (∀ (fuel : Nat) (acc : execute_result) (fname : String) (fid : Int) (v : WireVal)
        (ts : List Tok), (fid ≠ 1 ∨ wireType v ≠ TType.STRUCT) → valFuel v ≤ fuel →
      execute_result.readFields (fuel + 1) acc
        (Tok.tFieldBegin fname (wireType v) fid :: (encodeVal v ++ (Tok.tFieldEnd :: ts)))
        = execute_result.readFields fuel acc ts) ∧
    (∀ (fuel : Nat) (acc : fetchOne_args) (fname : String) (fid : Int) (v : WireVal)
        (ts : List Tok), valFuel v ≤ fuel →
      fetchOne_args.readFields (fuel + 1) acc
        (Tok.tFieldBegin fname (wireType v) fid :: (encodeVal v ++ (Tok.tFieldEnd :: ts)))
        = fetchOne_args.readFields fuel acc ts) ∧
    (∀ (fuel : Nat) (acc : fetchOne_result) (fname : String) (fid : Int) (v : WireVal)
        (ts : List Tok), (fid ≠ 0 ∨ wireType v ≠ TType.STRING) →
        (fid ≠ 1 ∨ wireType v ≠ TType.STRUCT) → valFuel v ≤ fuel →
      fetchOne_result.readFields (fuel + 1) acc
        (Tok.tFieldBegin fname (wireType v) fid :: (encodeVal v ++ (Tok.tFieldEnd :: ts)))
        = fetchOne_result.readFields fuel acc ts) ∧
    (∀ (fuel : Nat) (acc : fetchN_args) (fname : String) (fid : Int) (v : WireVal)
        (ts : List Tok), (fid ≠ 1 ∨ wireType v ≠ TType.I32) → valFuel v ≤ fuel →
      fetchN_args.readFields (fuel + 1) acc
        (Tok.tFieldBegin fname (wireType v) fid :: (encodeVal v ++ (Tok.tFieldEnd :: ts)))
        = fetchN_args.readFields fuel acc ts) ∧
    (∀ (fuel : Nat) (acc : fetchN_result) (fname : String) (fid : Int) (v : WireVal)
        (ts : List Tok), (fid ≠ 0 ∨ wireType v ≠ TType.LIST) →
        (fid ≠ 1 ∨ wireType v ≠ TType.STRUCT) → valFuel v ≤ fuel →
      fetchN_result.readFields (fuel + 1) acc
        (Tok.tFieldBegin fname (wireType v) fid :: (encodeVal v ++ (Tok.tFieldEnd :: ts)))
        = fetchN_result.readFields fuel acc ts) ∧
    (∀ (fuel : Nat) (acc : fetchAll_args) (fname : String) (fid : Int) (v : WireVal)
        (ts : List Tok), valFuel v ≤ fuel →
      fetchAll_args.readFields (fuel + 1) acc
        (Tok.tFieldBegin fname (wireType v) fid :: (encodeVal v ++ (Tok.tFieldEnd :: ts)))
        = fetchAll_args.readFields fuel acc ts) ∧
    (∀ (fuel : Nat) (acc : fetchAll_result) (fname : String) (fid : Int) (v : WireVal)
        (ts : List Tok), (fid ≠ 0 ∨ wireType v ≠ TType.LIST) →
        (fid ≠ 1 ∨ wireType v ≠ TType.STRUCT) → valFuel v ≤ fuel →
      fetchAll_result.readFields (fuel + 1) acc
        (Tok.tFieldBegin fname (wireType v) fid :: (encodeVal v ++ (Tok.tFieldEnd :: ts)))
        = fetchAll_result.readFields fuel acc ts) ∧
    (∀ (fuel : Nat) (acc : getSchema_args) (fname : String) (fid : Int) (v : WireVal)
        (ts : List Tok), valFuel v ≤ fuel →
      getSchema_args.readFields (fuel + 1) acc
        (Tok.tFieldBegin fname (wireType v) fid :: (encodeVal v ++ (Tok.tFieldEnd :: ts)))
        = getSchema_args.readFields fuel acc ts) ∧
    (∀ (fuel : Nat) (acc : getSchema_result) (fname : String) (fid : Int) (v : WireVal)
        (ts : List Tok), (fid ≠ 0 ∨ wireType v ≠ TType.STRING) →
        (fid ≠ 1 ∨ wireType v ≠ TType.STRUCT) → valFuel v ≤ fuel →
      getSchema_result.readFields (fuel + 1) acc
        (Tok.tFieldBegin fname (wireType v) fid :: (encodeVal v ++ (Tok.tFieldEnd :: ts)))
        = getSchema_result.readFields fuel acc ts) :=
  ⟨execute_args_skips_unknown, execute_result_skips_unknown, fetchOne_args_skips_unknown,
   fetchOne_result_skips_unknown, fetchN_args_skips_unknown, fetchN_result_skips_unknown,
   fetchAll_args_skips_unknown, fetchAll_result_skips_unknown, getSchema_args_skips_unknown,
   getSchema_result_skips_unknown⟩

/-- Witness for C7: an unknown field id 9 carrying an i32 payload in an
`execute_args` stream is skipped without affecting the decode. -/
theorem read_skips_unknown_fields_check :
    ((9 : Int) ≠ 1 ∨ wireType (WireVal.wI32 5) ≠ TType.STRING) ∧
    valFuel (WireVal.wI32 5) ≤ 1 ∧
    execute_args.readFields (1 + 1) { query := none }
      (Tok.tFieldBegin "mystery" (wireType (WireVal.wI32 5)) 9 ::
        (encodeVal (WireVal.wI32 5) ++ (Tok.tFieldEnd :: [Tok.tFieldStop, Tok.tStructEnd])))
      = execute_args.readFields 1 { query := none } [Tok.tFieldStop, Tok.tStructEnd] :=
  ⟨Or.inl (by decide), by decide,
    read_skips_unknown_fields.1 1 { query := none } "mystery" 9 (WireVal.wI32 5)
      [Tok.tFieldStop, Tok.tStructEnd] (Or.inl (by decide)) (by decide)⟩
